import Mathlib

/-!
Verification development for the Silver Star conversational intake core
(`backend/app/llm/chatbot/`): a shallow embedding of the chatbot state
machine, its heuristic field extractors and the profile validator, with
theorems settling the specification claims.

Conventions of the embedding:
* Python strings are Lean `String`s (all data involved is ASCII).
* Python `re` patterns are represented by a small regular-expression AST
  (`RE`) together with a backtracking matcher that implements the
  leftmost, greedy, alternation-in-order semantics of `re.search`,
  `re.findall`, `re.split` and `re.sub` as used by the source.
* LLM / network calls ("the inference oracle") are inputs: each call site
  reads a caller-supplied response, `Except Unit α` where the call can
  raise, so theorems quantify over oracle behaviours.
* A raised Python exception is `Except.error` carrying the session as
  mutated up to the raise point (Python mutates `self` in place, so a
  caller observes those mutations even when the call raises).
-/

namespace SilverStar

/-- The ASCII apostrophe character (used to build string literals that contain quotes). -/
def sqc : Char := Char.ofNat 39

/-- One-character string holding an apostrophe. -/
def sq : String := String.mk [sqc]

/-- Python `str.lower()` (ASCII case folding; all source data here is ASCII). -/
def pyLower (s : String) : String := String.mk (s.data.map Char.toLower)

/-- Python regex class `\s` (ASCII part, which is all the source's inputs use). -/
def isPySpace (c : Char) : Bool :=
  c = ' ' || c = '\t' || c = '\n' || c = '\r' || c = Char.ofNat 11 || c = Char.ofNat 12

/-- Python regex word character `\w` (ASCII part), for `\b` boundaries. -/
def isWordChar (c : Char) : Bool := c.isAlphanum || c = '_'

/-- Drop leading and trailing characters satisfying `p` (Python `str.strip(chars)`). -/
def stripCharsList (p : Char → Bool) (l : List Char) : List Char :=
  ((l.dropWhile p).reverse.dropWhile p).reverse

/-- Python `str.strip(cs)`: strip any of the characters of `cs` from both ends. -/
def pyStripChars (cs : String) (s : String) : String :=
  String.mk (stripCharsList (fun c => cs.data.contains c) s.data)

/-- Python `str.strip()` (no argument): strip whitespace from both ends. -/
def pyStrip (s : String) : String := String.mk (stripCharsList isPySpace s.data)

/-- Helper for `normSpacesL`; the flag records being inside a whitespace run
that has already emitted its single space. -/
def normSpacesAux : Bool → List Char → List Char
  | _, [] => []
  | inWs, c :: cs =>
    if isPySpace c then
      if inWs then normSpacesAux true cs else ' ' :: normSpacesAux true cs
    else c :: normSpacesAux false cs

/-- Python `re.sub(r"\s+", " ", s)`: replace every whitespace run by a single space. -/
def normSpacesL (l : List Char) : List Char := normSpacesAux false l

/-- String form of `normSpacesL`. -/
def normSpacesStr (s : String) : String := String.mk (normSpacesL s.data)

/-- Test that `needle` occurs as a contiguous sublist of `hay`. -/
def isSubList (needle hay : List Char) : Bool :=
  (List.range (hay.length + 1)).any (fun i => needle.isPrefixOf (hay.drop i))

/-- Python substring test `needle in hay`. -/
def containsSub (hay needle : String) : Bool := isSubList needle.data hay.data

/-- Helper for `pySplitWs`, accumulating the current token reversed. -/
def splitWsAux : List Char → List Char → List String
  | [], acc => if acc = [] then [] else [String.mk acc.reverse]
  | c :: cs, acc =>
    if isPySpace c then
      (if acc = [] then [] else [String.mk acc.reverse]) ++ splitWsAux cs []
    else splitWsAux cs (c :: acc)

/-- Python `str.split()` (no argument): split on whitespace runs, dropping empties. -/
def pySplitWs (s : String) : List String := splitWsAux s.data []

/-- Python `s.startswith(pre)`. -/
def strStartsWith (s pre : String) : Bool := pre.data.isPrefixOf s.data

/-- Python `int(...)` on a digit-only string (every call site passes a match
of `\d{1,3}`, so no failure case arises). -/
def digitsToNat (s : String) : Nat := s.data.foldl (fun a c => a * 10 + (c.toNat - 48)) 0

/-- Python `str.capitalize()`: first character uppercased, the rest lowercased. -/
def pyCapitalize (s : String) : String :=
  match s.data with
  | [] => ""
  | c :: cs => String.mk (c.toUpper :: cs.map Char.toLower)

/-- Helper for `pyTitle`: the flag records whether the previous character was a letter. -/
def pyTitleL : Bool → List Char → List Char
  | _, [] => []
  | prevAlpha, c :: cs =>
    if c.isAlpha then (if prevAlpha then c.toLower else c.toUpper) :: pyTitleL true cs
    else c :: pyTitleL false cs

/-- Python `str.title()`: uppercase each letter that starts a letter run, lowercase the rest. -/
def pyTitle (s : String) : String := String.mk (pyTitleL false s.data)

/-- Python `field.replace("_", " ")` as used on field names. -/
def underscoreToSpace (s : String) : String :=
  String.mk (s.data.map (fun c => if c = '_' then ' ' else c))

/-- Lookup in a string-keyed association list with a default (Python `dict.get(k, d)`). -/
def lookupD (m : List (String × String)) (k : String) (d : String) : String :=
  match m.find? (fun p => p.1 == k) with
  | some p => p.2
  | none => d

/-- Python `retry_counts.get(k, 0)` (keys can be `None` after a correction round, hence `Option`). -/
def rcGet : List (Option String × Nat) → Option String → Nat
  | [], _ => 0
  | p :: ps, k => if p.1 == k then p.2 else rcGet ps k

/-- Python `retry_counts[k] = v` (update the entry in place, else append). -/
def rcSet : List (Option String × Nat) → Option String → Nat → List (Option String × Nat)
  | [], k, v => [(k, v)]
  | p :: ps, k, v => if p.1 == k then (k, v) :: ps else p :: rcSet ps k v

/-- Python truthiness of an optional string (`None` and `""` are falsy). -/
def truthy : Option String → Bool
  | none => false
  | some t => t ≠ ""

instance exceptDecEq [DecidableEq ε] [DecidableEq α] : DecidableEq (Except ε α)
  | .ok x, .ok y => decidable_of_iff (x = y) (by simp)
  | .error x, .error y => decidable_of_iff (x = y) (by simp)
  | .ok _, .error _ => isFalse (by intro h; exact Except.noConfusion h)
  | .error _, .ok _ => isFalse (by intro h; exact Except.noConfusion h)

/-! ### A small regex engine

`RE` mirrors exactly the constructs appearing in the source's patterns:
case-insensitive literals (every pattern is compiled with `re.IGNORECASE`
or is case-neutral), character classes, sequencing, ordered alternation,
greedy `*` / `?` / `{lo,hi}`, a single capture group, `\b` and `$`.
`mrun` is a continuation-passing backtracking matcher implementing the
leftmost, greedy, alternatives-in-order semantics of Python `re`. -/

inductive RE where
  | eps
  | lit (s : String)
  | cls (p : Char → Bool)
  | seq (a b : RE)
  | alt (a b : RE)
  | star (r : RE)
  | rep (lo hi : Nat) (r : RE)
  | opt (r : RE)
  | grp (r : RE)
  | wb
  | eos

/-- Size measure used for termination of the matcher (counts `{lo,hi}` bounds). -/
def reSize : RE → Nat
  | .eps | .lit _ | .cls _ | .wb | .eos => 1
  | .seq a b => reSize a + reSize b + 1
  | .alt a b => reSize a + reSize b + 1
  | .star r => reSize r + 1
  | .rep _ hi r => reSize r + hi + 1
  | .opt r => reSize r + 1
  | .grp r => reSize r + 1

/-- Consume a case-insensitive literal, tracking the previously consumed character. -/
def litStep : List Char → Option Char → List Char → Option (Option Char × List Char)
  | [], prev, s => some (prev, s)
  | _ :: _, _, [] => none
  | l :: ls, _, c :: cs => if c.toLower = l.toLower then litStep ls (some c) cs else none

/-- Backtracking matcher. `prev` is the character before the current position
(for `\b`), `cap` the capture of the (single) group so far, `k` the
continuation receiving the state after this node. The definition is
structural in `fuel` (decremented on every recursive call) so that it
reduces inside the kernel; fuel exhaustion yields `none`, and `fuelFor`
below dominates the recursion depth of every pattern in this file, so the
fuelled run computes the exact Python `re` semantics. -/
def mrun : Nat → RE → Option Char → List Char → Option (List Char) →
    (Option Char → List Char → Option (List Char) → Option α) → Option α
  | 0, _, _, _, _, _ => none
  | fuel + 1, r, prev, s, cap, k =>
    match r with
    | .eps => k prev s cap
    | .lit l =>
      match litStep l.data prev s with
      | some (p', s') => k p' s' cap
      | none => none
    | .cls p =>
      match s with
      | [] => none
      | c :: cs => if p c then k (some c) cs cap else none
    | .seq a b => mrun fuel a prev s cap (fun p' s' c' => mrun fuel b p' s' c' k)
    | .alt a b =>
      match mrun fuel a prev s cap k with
      | some res => some res
      | none => mrun fuel b prev s cap k
    | .opt a =>
      match mrun fuel a prev s cap k with
      | some res => some res
      | none => k prev s cap
    | .star a =>
      match mrun fuel a prev s cap (fun p' s' c' =>
          if s'.length < s.length then mrun fuel (.star a) p' s' c' k else none) with
      | some res => some res
      | none => k prev s cap
    | .rep lo hi a =>
      match hi with
      | 0 => if lo = 0 then k prev s cap else none
      | h + 1 =>
        if lo = 0 then
          match mrun fuel a prev s cap (fun p' s' c' =>
              if s'.length < s.length then mrun fuel (.rep 0 h a) p' s' c' k else none) with
          | some res => some res
          | none => k prev s cap
        else
          mrun fuel a prev s cap (fun p' s' c' => mrun fuel (.rep (lo - 1) h a) p' s' c' k)
    | .grp a =>
      mrun fuel a prev s cap (fun p' s' _ => k p' s' (some (s.take (s.length - s'.length))))
    | .wb =>
      let l := match prev with | some c => isWordChar c | none => false
      let rr := match s with | c :: _ => isWordChar c | [] => false
      if l ≠ rr then k prev s cap else none
    | .eos =>
      match s with
      | [] => k prev s cap
      | _ :: _ => none

/-- Try the pattern at the current position; on success return the number of
consumed characters and the capture of group 1 (if the group participated). -/
def matchAt (fuel : Nat) (r : RE) (prev : Option Char) (s : List Char) :
    Option (Nat × Option (List Char)) :=
  mrun fuel r prev s none (fun _ s' cap => some (s.length - s'.length, cap))

/-- Fuel that dominates the matcher's recursion depth for every pattern and
input in this development. -/
def fuelFor (r : RE) (s : List Char) : Nat := (s.length + 4) * (reSize r + 4)

/-- Scan of `re.search`: try each start position from left to right. Returns
absolute `(start, end, group1)`. -/
def searchFrom (fuel : Nat) (r : RE) :
    Option Char → List Char → Nat → Option (Nat × Nat × Option (List Char))
  | prev, s, i =>
    match matchAt fuel r prev s with
    | some (n, cap) => some (i, i + n, cap)
    | none =>
      match s with
      | [] => none
      | c :: cs => searchFrom fuel r (some c) cs (i + 1)

/-- The result of a successful regex search. -/
structure MatchRes where
  mstart : Nat
  mend : Nat
  group0 : String
  group1 : Option String
  deriving Repr, DecidableEq

/-- Python `re.search(r, s)`. -/
def reSearch (r : RE) (s : String) : Option MatchRes :=
  let d := s.data
  match searchFrom (fuelFor r d) r none d 0 with
  | some (i, j, cap) => some ⟨i, j, String.mk ((d.drop i).take (j - i)), cap.map String.mk⟩
  | none => none

/-- Boolean form of `re.search`. -/
def reTest (r : RE) (s : String) : Bool := (reSearch r s).isSome

/-- Matching for a `^`-anchored pattern (Python `^` with no MULTILINE only
matches at position 0). -/
def reMatchAt0 (r : RE) (s : String) : Option MatchRes :=
  let d := s.data
  match matchAt (fuelFor r d) r none d with
  | some (n, cap) => some ⟨0, n, String.mk (d.take n), cap.map String.mk⟩
  | none => none

/-- Drop `n` characters, remembering the last one dropped (for `\b` tracking). -/
def dropWithPrev : Nat → Option Char → List Char → Option Char × List Char
  | 0, p, s => (p, s)
  | _ + 1, p, [] => (p, [])
  | n + 1, _, c :: cs => dropWithPrev n (some c) cs

/-- Auxiliary loop of `re.finditer` (non-overlapping, left to right). -/
def findIterAux (r : RE) : Nat → Option Char → List Char → Nat →
    List (Nat × Nat × Option (List Char))
  | 0, _, _, _ => []
  | f + 1, prev, s, base =>
    match searchFrom (fuelFor r s) r prev s base with
    | none => []
    | some (i, j, cap) =>
      let adv := if j > i then j - base else j - base + 1
      let (p', s') := dropWithPrev adv prev s
      (i, j, cap) :: findIterAux r f p' s' (base + adv)

/-- Python `re.finditer(r, s)` as a list of matches. -/
def reFindIter (r : RE) (s : String) : List MatchRes :=
  let d := s.data
  (findIterAux r (d.length + 1) none d 0).map
    (fun x => ⟨x.1, x.2.1, String.mk ((d.drop x.1).take (x.2.1 - x.1)), x.2.2.map String.mk⟩)

/-- Cut a string at the given match spans (`re.split`, patterns without groups). -/
def splitAtSpans (d : List Char) : Nat → List MatchRes → List String
  | pos, [] => [String.mk (d.drop pos)]
  | pos, m :: rest => String.mk ((d.drop pos).take (m.mstart - pos)) :: splitAtSpans d m.mend rest

/-- Python `re.split(r, s)` for group-free patterns. -/
def reSplit (r : RE) (s : String) : List String :=
  splitAtSpans s.data 0 (reFindIter r s)

/-- Python `re.split(r, s, maxsplit=1)` for group-free patterns. -/
def reSplit1 (r : RE) (s : String) : List String :=
  match reSearch r s with
  | none => [s]
  | some m => [String.mk (s.data.take m.mstart), String.mk (s.data.drop m.mend)]

/-- Splice replacements over the match spans (`re.sub`). -/
def subSplice (d : List Char) (repl : List Char) : Nat → List MatchRes → List Char
  | pos, [] => d.drop pos
  | pos, m :: rest => (d.drop pos).take (m.mstart - pos) ++ repl ++ subSplice d repl m.mend rest

/-- Python `re.sub(r, repl, s)` for literal replacement strings. -/
def reSub (r : RE) (repl : String) (s : String) : String :=
  String.mk (subSplice s.data repl.data 0 (reFindIter r s))

/-- Ordered alternation of a list of alternatives (empty list never matches). -/
def altList : List RE → RE
  | [] => .cls (fun _ => false)
  | [r] => r
  | r :: rs => .alt r (altList rs)

/-- Sequencing of a list of nodes. -/
def seqList : List RE → RE
  | [] => .eps
  | [r] => r
  | r :: rs => .seq r (seqList rs)

/-- Pattern `\s+`. -/
def wsPlusRE : RE := .seq (.cls isPySpace) (.star (.cls isPySpace))

/-- Pattern `\s*`. -/
def wsStarRE : RE := .star (.cls isPySpace)

/-- Pattern `\d`. -/
def digitRE : RE := .cls Char.isDigit

/-- Ordered alternation of case-insensitive literals. -/
def litsRE (ss : List String) : RE := altList (ss.map RE.lit)

/-! ### Field extractor heuristics (`CandidateChatbot`'s static helpers)

Each Python regex is transcribed node for node; the original pattern text
appears in the doc comments with `@` standing for the apostrophe character. -/

/-- Class `[^.!?]`. -/
def notSentEnd : RE := .cls (fun c => ¬ (c = '.' ∨ c = '!' ∨ c = '?'))

/-- The canonical non-remote phrase produced by `_normalize_limitations`. -/
def canonicalNonRemote : String := "prefers non-remote (in-person); no remote work"

/-- The phrase list scanned (as substrings of the lowercased value) by
`_normalize_limitations`. -/
def remoteNegativePhrases : List String :=
  ["not remote",
   "no remote",
   s!"don{sq}t want to work remotely",
   "do not want to work remotely",
   "no remote work",
   "prefer in-person",
   "in person only",
   "on-site only",
   "onsite only",
   "not work remotely",
   "avoid remote"]

/-- Python `_normalize_limitations(value)`: if the lowercased value contains any
remote-negative phrase, return the canonical non-remote phrase, else the
value unchanged (empty values are returned as is). -/
def normalizeLimitations (v : String) : String :=
  if v = "" then v
  else
    let text := pyLower v
    if remoteNegativePhrases.any (fun p => containsSub text p) then canonicalNonRemote
    else v

/-- Limitations pattern 1: `\b(?:not|no)\s+remote\b`. -/
def limitsPat1 : RE := seqList [.wb, litsRE ["not", "no"], wsPlusRE, .lit "remote", .wb]

/-- Limitations pattern 2: `\bprefer\s+(?:no|not)\s+remote\b`. -/
def limitsPat2 : RE :=
  seqList [.wb, .lit "prefer", wsPlusRE, litsRE ["no", "not"], wsPlusRE, .lit "remote", .wb]

/-- Limitations pattern 3: `\b(?:in\s*person|on-?site|onsite)\s+only\b`. -/
def limitsPat3 : RE :=
  seqList [.wb,
    altList [seqList [.lit "in", wsStarRE, .lit "person"],
             seqList [.lit "on", .opt (.lit "-"), .lit "site"],
             .lit "onsite"],
    wsPlusRE, .lit "only", .wb]

/-- Limitations pattern 4: `\b(?:do\s+not|don@t)\s+want\s+to\s+work\s+remotely\b`. -/
def limitsPat4 : RE :=
  seqList [.wb,
    altList [seqList [.lit "do", wsPlusRE, .lit "not"], .lit s!"don{sq}t"],
    wsPlusRE, .lit "want", wsPlusRE, .lit "to", wsPlusRE, .lit "work", wsPlusRE,
    .lit "remotely", .wb]

/-- Limitations pattern 5:
`\b(?:cannot|can@t|do\s+not\s+want\s+to)\s+lift\s+\d+\s*(?:lbs|pounds)?\b`. -/
def limitsPat5 : RE :=
  seqList [.wb,
    altList [.lit "cannot", .lit s!"can{sq}t",
             seqList [.lit "do", wsPlusRE, .lit "not", wsPlusRE, .lit "want", wsPlusRE, .lit "to"]],
    wsPlusRE, .lit "lift", wsPlusRE, .seq digitRE (.star digitRE), wsStarRE,
    .opt (litsRE ["lbs", "pounds"]), .wb]

/-- Limitations pattern 6: `\bprefer\s+to\s+avoid\s+([^.!?]{2,120})`. -/
def limitsPat6 : RE :=
  seqList [.wb, .lit "prefer", wsPlusRE, .lit "to", wsPlusRE, .lit "avoid", wsPlusRE,
    .grp (.rep 2 120 notSentEnd)]

/-- The ordered pattern list of `_detect_limitations_from_message`. -/
def limitsPatterns : List RE :=
  [limitsPat1, limitsPat2, limitsPat3, limitsPat4, limitsPat5, limitsPat6]

/-- Python `_detect_limitations_from_message(message)`: first matching pattern wins;
the captured group (or whole match) is stripped of `" .,!"` and passed
through `_normalize_limitations`. -/
def detectLimitationsFromMessage (message : String) : Option String :=
  if message = "" then none
  else
    limitsPatterns.findSome? (fun pat =>
      match reSearch pat message with
      | none => none
      | some m =>
        let val := pyStripChars " .,!" (m.group1.getD m.group0)
        some (normalizeLimitations val))

/-- Name token `[A-Za-z][A-Za-z@-]*`. -/
def nameTok : RE := .seq (.cls Char.isAlpha) (.star (.cls (fun c => c.isAlpha ∨ c = sqc ∨ c = '-')))

/-- Pattern `[A-Za-z][A-Za-z@-]*(?:\s+[A-Za-z][A-Za-z@-]*)*`. -/
def nameSeqStar : RE := .seq nameTok (.star (.seq wsPlusRE nameTok))

/-- Pattern `[A-Za-z][A-Za-z@-]*(?:\s+[A-Za-z][A-Za-z@-]*)+`. -/
def nameSeqPlus : RE := .seq nameTok (.seq (.seq wsPlusRE nameTok) (.star (.seq wsPlusRE nameTok)))

/-- Name pattern 1: `(?:my name is|i@m|i am|call me)\s+(nameSeqStar)`. -/
def namePat1 : RE :=
  seqList [litsRE ["my name is", s!"i{sq}m", "i am", "call me"], wsPlusRE, .grp nameSeqStar]

/-- Name pattern 2 (anchored): `^(?:hi|hello|hey)[,\s]*(?:i@m|i am)?\s*(nameSeqStar)`. -/
def namePat2 : RE :=
  seqList [litsRE ["hi", "hello", "hey"],
    .star (.cls (fun c => c = ',' ∨ isPySpace c)),
    .opt (litsRE [s!"i{sq}m", "i am"]), wsStarRE, .grp nameSeqStar]

/-- Name pattern 3 (anchored): `^(nameSeqStar)$`. -/
def namePat3 : RE := .seq (.grp nameSeqStar) .eos

/-- Correction pattern used with `finditer` when the word "name" occurs:
`(?:it\s+(?:is|s))\s+(nameSeqPlus)`. -/
def nameCorrectionRE : RE :=
  seqList [.lit "it", wsPlusRE, litsRE ["is", "s"], wsPlusRE, .grp nameSeqPlus]

/-- End-anchored correction pattern: `(?:it\s+(?:is|s))\s+(nameSeqPlus)$`. -/
def nameCorrectionEndRE : RE :=
  seqList [.lit "it", wsPlusRE, litsRE ["is", "s"], wsPlusRE, .grp nameSeqPlus, .eos]

/-- Source `CandidateChatbot.NON_NAME_TOKENS`. -/
def NON_NAME_TOKENS : List String :=
  ["hi", "hello", "hey", "hiya", "greetings", "morning", "afternoon", "evening",
   "thanks", "thank", "yo", "hola", "sup", "in", "at", "from", "on", "of", "the",
   "good", "great", "fine", "okay", "ok", "awesome", "well", "alright", "cool", "tired"]

/-- The per-candidate filter loop of `_detect_full_name_from_message`. -/
def nameCandidateCheck (raw : String) : Option String :=
  if raw = "" then none
  else
    let candidate := pyStripChars " ,.!?" (normSpacesStr raw)
    let candidate :=
      match reSearch nameCorrectionEndRE candidate with
      | some m => pyStripChars " ,.!?" (m.group1.getD "")
      | none => candidate
    if ¬ (2 ≤ candidate.length ∧ candidate.length ≤ 80) then none
    else if strStartsWith (pyLower candidate) "not " then none
    else if candidate.data.any Char.isDigit then none
    else
      match pySplitWs candidate with
      | [] => none
      | t0 :: rest =>
        if NON_NAME_TOKENS.contains (pyLower t0) then none
        else
          let cleaned := " ".intercalate ((t0 :: rest).map pyCapitalize)
          if NON_NAME_TOKENS.contains (pyLower cleaned) then none
          else some cleaned

/-- Python `_detect_full_name_from_message(message)`. -/
def detectFullNameFromMessage (message : String) : Option String :=
  if message = "" then none
  else
    let corr :=
      if containsSub (pyLower message) "name" then
        (reFindIter nameCorrectionRE message).filterMap (fun m => m.group1)
      else []
    let pats :=
      [reSearch namePat1 message, reMatchAt0 namePat2 message,
       reMatchAt0 namePat3 message].filterMap (fun m => m.bind (fun x => x.group1))
    (corr ++ pats).findSome? nameCandidateCheck

/-- Sentence splitter of `_detect_location_from_message`: `[\.!?]+\s+`. -/
def sentSplitRE : RE :=
  .seq (.seq (.cls (fun c => c = '.' ∨ c = '!' ∨ c = '?'))
             (.star (.cls (fun c => c = '.' ∨ c = '!' ∨ c = '?')))) wsPlusRE

/-- Location lead-in pattern:
`(?:\b(?:i(?:@m| am)?|i live|i reside|i work|i@m based|i am based|i@m located|i am located|based|located)\s+(?:in|at|near|around)\s+|\bfrom\s+)`. -/
def locLeadinsRE : RE :=
  .alt
    (seqList [.wb,
      altList [.seq (.lit "i") (.opt (litsRE [s!"{sq}m", " am"])),
               .lit "i live", .lit "i reside", .lit "i work",
               .lit s!"i{sq}m based", .lit "i am based",
               .lit s!"i{sq}m located", .lit "i am located",
               .lit "based", .lit "located"],
      wsPlusRE, litsRE ["in", "at", "near", "around"], wsPlusRE])
    (seqList [.wb, .lit "from", wsPlusRE])

/-- Location exclusion pattern:
`\b(health|condition|issues?|interests?|limitations?|remote|computer|drive|driving|teacher|wood|work\s+with\s+wood)\b`. -/
def locExclusionRE : RE :=
  seqList [.wb,
    .grp (altList [.lit "health", .lit "condition",
      .seq (.lit "issue") (.opt (.lit "s")),
      .seq (.lit "interest") (.opt (.lit "s")),
      .seq (.lit "limitation") (.opt (.lit "s")),
      .lit "remote", .lit "computer", .lit "drive", .lit "driving",
      .lit "teacher", .lit "wood",
      seqList [.lit "work", wsPlusRE, .lit "with", wsPlusRE, .lit "wood"]]),
    .wb]

/-- Clause splitter applied to the captured remainder: `[\.;!]\s*` (maxsplit 1). -/
def clauseSplitRE : RE := .seq (.cls (fun c => c = '.' ∨ c = ';' ∨ c = '!')) wsStarRE

/-- Age-statement rejection pattern: `\b(\d{2,4}\s*(years|yrs)\b|\bI\s+am\s+\d+\b)`. -/
def ageStatementRE : RE :=
  seqList [.wb,
    .grp (altList
      [seqList [.rep 2 4 digitRE, wsStarRE, litsRE ["years", "yrs"], .wb],
       seqList [.wb, .lit "i", wsPlusRE, .lit "am", wsPlusRE, .seq digitRE (.star digitRE), .wb]])]

/-- Python `_detect_location_from_message(message)`. -/
def detectLocationFromMessage (message : String) : Option String :=
  if message = "" then none
  else
    (reSplit sentSplitRE message).findSome? (fun sent =>
      let s := pyStrip sent
      if s = "" ∨ reTest locExclusionRE s then none
      else
        match reSearch locLeadinsRE s with
        | none => none
        | some m =>
          let candidate := String.mk (s.data.drop m.mend)
          let candidate := (reSplit1 clauseSplitRE candidate).headD ""
          let candidate := pyStripChars " ,.!?" candidate
          if candidate = "" ∨ candidate.length < 2 ∨ candidate.length > 80 then none
          else if ¬ candidate.data.any Char.isAlpha then none
          else if reTest ageStatementRE candidate then none
          else some (normSpacesStr candidate))

/-- Physical-condition pattern 1: `\bphysical\s+condition\s*(?:is|:)?\s*([^.!?]{2,120})`. -/
def physPat1 : RE :=
  seqList [.wb, .lit "physical", wsPlusRE, .lit "condition", wsStarRE,
    .opt (litsRE ["is", ":"]), wsStarRE, .grp (.rep 2 120 notSentEnd)]

/-- Physical-condition pattern 2:
`\b(?:health|health\s+problems|medical\s+issues)\s*(?:is|are|:)?\s*([^.!?]{2,120})`. -/
def physPat2 : RE :=
  seqList [.wb,
    altList [.lit "health",
             seqList [.lit "health", wsPlusRE, .lit "problems"],
             seqList [.lit "medical", wsPlusRE, .lit "issues"]],
    wsStarRE, .opt (litsRE ["is", "are", ":"]), wsStarRE, .grp (.rep 2 120 notSentEnd)]

/-- Physical-condition pattern 3:
`\b(?:in|with)\s+(?:excellent|good|fair|poor)\s+(?:health|shape|condition)\b`. -/
def physPat3 : RE :=
  seqList [.wb, litsRE ["in", "with"], wsPlusRE,
    litsRE ["excellent", "good", "fair", "poor"], wsPlusRE,
    litsRE ["health", "shape", "condition"], .wb]

/-- Physical-condition pattern 4: `\bno\s+health\s+problems?\b`. -/
def physPat4 : RE :=
  seqList [.wb, .lit "no", wsPlusRE, .lit "health", wsPlusRE, .lit "problem",
    .opt (.lit "s"), .wb]

/-- Python `_detect_physical_condition_from_message(message)`. -/
def detectPhysicalConditionFromMessage (message : String) : Option String :=
  if message = "" then none
  else
    [physPat1, physPat2, physPat3, physPat4].findSome? (fun pat =>
      match reSearch pat message with
      | none => none
      | some m =>
        let value := pyStripChars " .,!" (normSpacesStr (m.group1.getD m.group0))
        if value ≠ "" then some value else none)

/-- Interests pattern 1:
`\b(?:i\s+would\s+like\s+to\s+be|i\s+want\s+to\s+be|i[@\s]m\s+interested\s+in|i\s+am\s+interested\s+in|i\s+like\s+to\s+work\s+as|my\s+interests\s+are)\s+([^.!?]{2,120})`. -/
def interestsPat1 : RE :=
  seqList [.wb,
    altList
      [seqList [.lit "i", wsPlusRE, .lit "would", wsPlusRE, .lit "like", wsPlusRE, .lit "to",
        wsPlusRE, .lit "be"],
       seqList [.lit "i", wsPlusRE, .lit "want", wsPlusRE, .lit "to", wsPlusRE, .lit "be"],
       seqList [.lit "i", .cls (fun c => c = sqc ∨ isPySpace c), .lit "m", wsPlusRE,
        .lit "interested", wsPlusRE, .lit "in"],
       seqList [.lit "i", wsPlusRE, .lit "am", wsPlusRE, .lit "interested", wsPlusRE, .lit "in"],
       seqList [.lit "i", wsPlusRE, .lit "like", wsPlusRE, .lit "to", wsPlusRE, .lit "work",
        wsPlusRE, .lit "as"],
       seqList [.lit "my", wsPlusRE, .lit "interests", wsPlusRE, .lit "are"]],
    wsPlusRE, .grp (.rep 2 120 notSentEnd)]

/-- Interests pattern 2 (anchored both ends):
`^\s*(teacher|tutor|driver|cashier|nurse|caregiver|coordinator)\s*$`. -/
def interestsPat2 : RE :=
  seqList [wsStarRE,
    .grp (litsRE ["teacher", "tutor", "driver", "cashier", "nurse", "caregiver", "coordinator"]),
    wsStarRE, .eos]

/-- Python `_detect_interests_from_message(message)`. The first pattern is searched,
the second is start-anchored; on a match the capture (or whole match) is
stripped of `" .,!"` and whitespace-collapsed, returned even if empty. -/
def detectInterestsFromMessage (message : String) : Option String :=
  if message = "" then none
  else
    match reSearch interestsPat1 message with
    | some m => some (normSpacesStr (pyStripChars " .,!" (m.group1.getD m.group0)))
    | none =>
      match reMatchAt0 interestsPat2 message with
      | some m => some (normSpacesStr (pyStripChars " .,!" (m.group1.getD m.group0)))
      | none => none

/-- Typo-correction pattern for physical condition: `\b[hg]o\s+health\b`. -/
def hgHealthRE : RE :=
  seqList [.wb, .cls (fun c => c.toLower = 'h' ∨ c.toLower = 'g'), .lit "o", wsPlusRE,
    .lit "health", .wb]

/-- Python `_detect_common_corrections(field, value)`: only the physical-condition
`[hg]o health → no health` substitution exists. -/
def detectCommonCorrections (field : String) (value : String) : Option String :=
  if value = "" then none
  else if field = "physical_condition" then
    let corrected := reSub hgHealthRE "no health" value
    if corrected ≠ value then some corrected else none
  else none

/-- Sanity pattern of `_extract_limitations`:
`\b(Boston|MA|USA|street|road|avenue|interest|teaching|wood)\b`. -/
def limitsSanityRE : RE :=
  seqList [.wb,
    .grp (litsRE ["boston", "ma", "usa", "street", "road", "avenue", "interest",
      "teaching", "wood"]),
    .wb]

/-- Function `normalize_age` (inside `_extract_age`) / the age branch of
`_auto_extract_all`: first `\d{1,3}` run, accepted only in `[10, 120]`. -/
def normalizeAge (value : String) : Option String :=
  if value = "" then none
  else
    match (reFindIter (.rep 1 3 digitRE) value).map (fun m => m.group0) with
    | [] => none
    | d :: _ =>
      let n := digitsToNat d
      if 10 ≤ n ∧ n ≤ 120 then some (toString n) else none

/-- Function `_extract_age_inline` (inside `_extract_location`): all `\b(\d{1,3})\b`
matches, first one in `[10, 120]`. -/
def extractAgeInline (text : String) : Option String :=
  if text = "" then none
  else
    ((reFindIter (seqList [.wb, .grp (.rep 1 3 digitRE), .wb]) text).filterMap
      (fun m => m.group1)).findSome? (fun d =>
        let n := digitsToNat d
        if 10 ≤ n ∧ n ≤ 120 then some (toString n) else none)

/-- Location patterns of the `_extract_location` handler (not the detector):
`(?:i(?:@m| am)?|i live|i reside|i work|i@m based|i am based|i@m located|i am located|based|located)\s+(?:in|at|near|around)\s+([A-Za-z0-9 ,@-]+)`,
`(?:from)\s+([A-Za-z0-9 ,@-]+)` and `^(?:in\s+)?([A-Za-z0-9 ,@-]+)$`. -/
def locCharCls : RE :=
  .cls (fun c => c.isAlphanum ∨ c = ' ' ∨ c = ',' ∨ c = sqc ∨ c = '-')

def locHandlerPat1 : RE :=
  seqList [altList [.seq (.lit "i") (.opt (litsRE [s!"{sq}m", " am"])),
      .lit "i live", .lit "i reside", .lit "i work",
      .lit s!"i{sq}m based", .lit "i am based",
      .lit s!"i{sq}m located", .lit "i am located",
      .lit "based", .lit "located"],
    wsPlusRE, litsRE ["in", "at", "near", "around"], wsPlusRE,
    .grp (.seq locCharCls (.star locCharCls))]

def locHandlerPat2 : RE :=
  seqList [.lit "from", wsPlusRE, .grp (.seq locCharCls (.star locCharCls))]

def locHandlerPat3 : RE :=
  seqList [.opt (.seq (.lit "in") wsPlusRE), .grp (.seq locCharCls (.star locCharCls)), .eos]

/-! ### Profile validator (`profile_validator.py`) -/

/-- Source `ProfileValidationService.REQUIRED_FIELDS`. -/
def REQUIRED_FIELDS : List String :=
  ["full_name", "location", "age", "physical_condition", "interests", "limitations"]

/-- The six data fields of `candidate_info` that the validator inspects. -/
structure Profile where
  fullName : Option String
  location : Option String
  age : Option String
  physicalCondition : Option String
  interests : Option String
  limitations : Option String
  deriving Repr, DecidableEq

/-- Python `profile.get(field)` for the six required fields. -/
def Profile.get (p : Profile) : String → Option String
  | "full_name" => p.fullName
  | "location" => p.location
  | "age" => p.age
  | "physical_condition" => p.physicalCondition
  | "interests" => p.interests
  | "limitations" => p.limitations
  | _ => none

/-- Python `candidate_info[field] = v` for the six required fields. -/
def Profile.set (p : Profile) (k : String) (v : Option String) : Profile :=
  match k with
  | "full_name" => { p with fullName := v }
  | "location" => { p with location := v }
  | "age" => { p with age := v }
  | "physical_condition" => { p with physicalCondition := v }
  | "interests" => { p with interests := v }
  | "limitations" => { p with limitations := v }
  | _ => p

/-- The empty profile. -/
def Profile.empty : Profile := ⟨none, none, none, none, none, none⟩

/-- Step 1 of `validate_profile` (local, deterministic): every required field
whose value is falsy (`None` or `""`), in `REQUIRED_FIELDS` order. -/
def localMissingFields (p : Profile) : List String :=
  REQUIRED_FIELDS.filter (fun f => ¬ truthy (p.get f))

/-- Insertion into a sorted list of strings (lexicographic, as Python `sorted`). -/
def insertSorted (x : String) : List String → List String
  | [] => [x]
  | y :: ys => if x ≤ y then x :: y :: ys else y :: insertSorted x ys

/-- Python `sorted(set(a) | set(b))`. -/
def sortedUnion (a b : List String) : List String :=
  ((a ++ b).dedup).foldr insertSorted []

/-- Parsed JSON object returned by the validator's oracle round trip.
`isComplete` distinguishes a missing key (`none`), a JSON `null`
(`some none`) and a boolean (`some (some b)`), because the source reads the
key both through the overwrite loop (absent and null are skipped alike) and
through `llm_result.get("is_complete", True)` (absent defaults to true while
null is falsy). For every other key absent and null behave identically, so a
single `Option` level suffices. The response is modeled as well-typed JSON
of the requested schema. -/
structure LlmVal where
  isComplete : Option (Option Bool)
  missingFields : Option (List String)
  issues : Option (List String)
  summary : Option String
  notes : Option String
  deriving Repr, DecidableEq

/-- Result dictionary of `validate_profile` after its final normalization
(`summary` always a non-empty string, empty `notes` collapsed to `None`). -/
structure VResult where
  isComplete : Bool
  missingFields : List String
  issues : List String
  summary : String
  notes : Option String
  deriving Repr, DecidableEq

/-- Canned summary applied after the try/except (source lines 104-109). -/
def finalFallbackSummary (isComplete : Bool) : String :=
  if isComplete then s!"I{sq}ve captured all of your details and everything looks complete."
  else "I still need a bit more information before the profile is complete."

/-- Python `ProfileValidationService.validate_profile(profile)`.

`oracleResp` is the outcome of the whole oracle round trip (prompt
construction including the `TOKENS_MULT` environment read,
`generate_response`, JSON parse): `Except.error` models an exception
anywhere on that path, which the source catches, falling back to the
heuristic verdict. The function itself never raises.

Note the source's overwrite loop assigns `result["is_complete"]` from the
oracle before the merge, but that value is unconditionally reassigned right
after the merge, so it is not represented. The loop's overwrite of
`result["missing_fields"]` (which happens before the "merge" union and
makes the union a no-op) is represented faithfully. -/
def validateProfileSvc (p : Profile) (oracleResp : Except Unit LlmVal) : VResult :=
  let missing := localMissingFields p
  let issues0 : List String :=
    if missing ≠ [] then
      ["Some required fields are missing: " ++
        String.intercalate ", " (missing.map underscoreToSpace)]
    else []
  match oracleResp with
  | .error _ =>
    let isc : Bool := missing = []
    { isComplete := isc
      missingFields := missing
      issues := issues0
      summary :=
        if isc then s!"I{sq}ve recorded your details. Everything looks good from what I can see."
        else "I still need a bit more information before the profile is complete."
      notes := none }
  | .ok llm =>
    let issues1 := llm.issues.getD issues0
    let llmMissing := llm.missingFields.getD []
    let mergedMissing := sortedUnion (llm.missingFields.getD missing) llmMissing
    let isComplete : Bool :=
      if mergedMissing ≠ [] then false
      else
        match llm.isComplete with
        | none => true
        | some none => false
        | some (some b) => b
    let summary :=
      match llm.summary with
      | some t => if t ≠ "" then t else finalFallbackSummary isComplete
      | none => finalFallbackSummary isComplete
    { isComplete
      missingFields := mergedMissing
      issues := issues1
      summary
      notes :=
        match llm.notes with
        | some t => if t = "" then none else some t
        | none => none }

/-! ### Conversation session, oracle, and `process_message` (`chatbot.py`)

Audio playback (`enable_audio`) is modeled as disabled: it only plays the
response and swallows its own exceptions, affecting no claim. -/

/-- Source `_pending_correction` entry. -/
structure PendingCorrection where
  field : String
  original : String
  corrected : String
  deriving Repr, DecidableEq

/-- The chatbot session state (`self` of `CandidateChatbot`). `retryCounts`
keys are `Option String` because after a resolved correction round the
source can index `retry_counts` with `None`. -/
structure Session where
  conversationState : String
  profile : Profile
  validationRes : Option VResult
  executiveSummary : Option String
  jobSuggestions : Option String
  conversationHistory : List (String × String)
  lastQuestion : Option String
  lastQuestionType : Option String
  retryCounts : List (Option String × Nat)
  pendingCorrection : Option PendingCorrection
  deriving Repr, DecidableEq

/-- Session state right after `__init__`. -/
def freshSession : Session :=
  ⟨"greeting", Profile.empty, none, none, none, [], none, none, [], none⟩

/-- Append a turn to the conversation history. -/
def pushHist (role content : String) (s : Session) : Session :=
  { s with conversationHistory := s.conversationHistory ++ [(role, content)] }

/-- Write one profile field of the session. -/
def Session.setField (s : Session) (k : String) (v : Option String) : Session :=
  { s with profile := s.profile.set k v }

/-- Source `FIELD_KEYS`. -/
def FIELD_KEYS : List String := REQUIRED_FIELDS

/-- Source `FIELD_STATE_MAP`. -/
def FIELD_STATE_MAP : List (String × String) :=
  [("full_name", "collecting_full_name"), ("location", "collecting_location"),
   ("age", "collecting_age"), ("physical_condition", "collecting_physical_condition"),
   ("interests", "collecting_interests"), ("limitations", "collecting_limitations")]

/-- Source `FIELD_TYPE_MAP` (the identity on the six field names). -/
def FIELD_TYPE_MAP : List (String × String) := FIELD_KEYS.map (fun k => (k, k))

/-- Source `FIELD_LABEL_MAP`. -/
def FIELD_LABEL_MAP : List (String × String) :=
  [("full_name", "full name"), ("location", "location"), ("age", "age"),
   ("physical_condition", "physical condition"), ("interests", "areas of interest"),
   ("limitations", "limitations")]

/-- Source `examples` dictionary of the retry-escalation branch. -/
def EXAMPLES_MAP : List (String × String) :=
  [("full_name", s!"e.g., {sq}Jane Doe{sq}"), ("location", s!"e.g., {sq}Boston, MA{sq}"),
   ("age", s!"e.g., {sq}65{sq}"), ("physical_condition", s!"e.g., {sq}excellent health{sq}"),
   ("interests", s!"e.g., {sq}teaching{sq}"), ("limitations", s!"e.g., {sq}no remote work{sq}")]

/-- Parsed structured-extraction response over the six-field schema of
`_auto_extract_all` (absent/null and present keys collapsed to `Option`,
values coerced to strings as the source does with `str(...)`). -/
structure ExtractData where
  fullName : Option String
  location : Option String
  age : Option String
  physicalCondition : Option String
  interests : Option String
  limitations : Option String
  deriving Repr, DecidableEq

/-- Extraction response with no fields. -/
def ExtractData.empty : ExtractData := ⟨none, none, none, none, none, none⟩

/-- Read one field of an extraction response. -/
def ExtractData.get (d : ExtractData) : String → Option String
  | "full_name" => d.fullName
  | "location" => d.location
  | "age" => d.age
  | "physical_condition" => d.physicalCondition
  | "interests" => d.interests
  | "limitations" => d.limitations
  | _ => none

/-- Fields of the answer validator's JSON verdict that `process_message`
reads (`confidence`, `needs_clarification`, `reason` are produced by the
source but never read by the state machine and are omitted). -/
structure AnswerVerdict where
  isValid : Bool
  extractedValue : Option String
  deriving Repr, DecidableEq

/-- Python `AnswerValidator.validate_answer` (`validation.py`): delegates to
the oracle and fails closed. `resp` is the oracle round trip: `.error`
models the call or the JSON parse raising, `.ok none` a parsed object
missing required keys; both yield the invalid / needs-clarification
verdict. `validate_answer` itself never raises. -/
def validateAnswer (resp : Except Unit (Option AnswerVerdict)) : AnswerVerdict :=
  match resp with
  | .ok (some v) => v
  | _ => ⟨false, none⟩

/-- Executive summary as consumed by `_validate_profile`: the rendered JSON
document (`json.dumps`, oracle-determined) and the `suggested_roles`
payload (collapsed to its rendering; the claims never inspect it). -/
structure ExecSum where
  text : String
  suggestedRoles : Option String
  deriving Repr, DecidableEq

/-- One turn's worth of collaborator behaviour. Each field corresponds to
one oracle call site of the source; `Except.error` means that call raised. -/
structure Oracle where
  answer : Except Unit (Option AnswerVerdict)
  autoExtract : Except Unit ExtractData
  nameExtract : Except Unit (Option String)
  locExtract : Except Unit (Option String)
  ageExtract : Except Unit (Option String)
  condExtract : Except Unit (Option String)
  interestsExtract : Except Unit (Option String)
  limitsExtract : Except Unit (Option String)
  geo : String → Option String
  profileLlm : Except Unit LlmVal
  followupGen : Except Unit String
  summaryGen : Except Unit String
  execSummary : Option ExecSum
  generalGen : Except Unit String
  recsText : String

/-- Python `_validate_and_format_location(candidate)`. The `GEO_VALIDATE`
gate, the rate limiter and the `requests` round trip are collapsed into
`geo`: `geo q = some r` models a successful Nominatim lookup formatted to
`r` (`compact or display or q`); `geo q = none` models every path on which
the source returns the cleaned candidate `q` itself (gate off, rate
limited, HTTP failure, exception, empty result list). -/
def validateAndFormatLocation (geo : String → Option String) (candidate : String) :
    Option String :=
  if candidate = "" then none
  else
    let q := pyStripChars " ," (normSpacesStr candidate)
    if q = "" ∨ q.length < 2 then none
    else some ((geo q).getD q)

/-- Python `_preferred_name()`. -/
def preferredName (s : Session) : Option String :=
  match s.profile.fullName with
  | some fn => if fn ≠ "" then (pySplitWs fn).head? else none
  | none => none

/-- Python `_profile_summary_snippet()`. -/
def profileSummarySnippet (s : Session) : String :=
  let parts := FIELD_KEYS.filterMap (fun k =>
    match s.profile.get k with
    | some v =>
      if v ≠ "" then some (lookupD FIELD_LABEL_MAP k (underscoreToSpace k) ++ ": " ++ v)
      else none
    | none => none)
  if parts = [] then "no details yet" else String.intercalate "; " parts

/-- Python `seed_profile(profile)`: apply truthy stripped string values of the
six fields and jump to the confirmation state. -/
def seedProfile (d : List (String × String)) (s : Session) : Session :=
  let s := FIELD_KEYS.foldl (fun acc k =>
    match d.find? (fun p => p.1 == k) with
    | some kv =>
      let v := pyStrip kv.2
      if v ≠ "" then acc.setField k (some v) else acc
    | none => acc) s
  { s with conversationState := "confirming_profile" }

/-- Python `reset_conversation()`. The source resets state, profile, history
and the pending question but leaves `retry_counts` and
`_pending_correction` untouched. -/
def resetConversation (s : Session) : Session :=
  { conversationState := "greeting", profile := Profile.empty, validationRes := none,
    executiveSummary := none, jobSuggestions := none, conversationHistory := [],
    lastQuestion := none, lastQuestionType := none,
    retryCounts := s.retryCounts, pendingCorrection := s.pendingCorrection }

/-- Mapping used by `_advance_state_if_filled`. -/
def advanceMapping : List (String × String) :=
  [("collecting_full_name", "full_name"), ("collecting_location", "location"),
   ("collecting_age", "age"), ("collecting_physical_condition", "physical_condition"),
   ("collecting_interests", "interests"), ("collecting_limitations", "limitations")]

/-- One pass of the inner loop of `_advance_state_if_filled`. -/
def advanceOnce (s : Session) : Option Session :=
  match advanceMapping.findIdx?
      (fun p => p.1 == s.conversationState && truthy (s.profile.get p.2)) with
  | none => none
  | some i =>
    let st :=
      if i + 1 < advanceMapping.length then (advanceMapping.getD (i + 1) ("", "")).1
      else "validating_profile"
    some { s with conversationState := st }

/-- Bounded iteration (`for _ in range(len(mapping))`). -/
def advanceIter : Nat → Session → Session
  | 0, s => s
  | n + 1, s =>
    match advanceOnce s with
    | some s' => advanceIter n s'
    | none => s

/-- Python `_advance_state_if_filled()`. -/
def advanceStateIfFilled (s : Session) : Session := advanceIter advanceMapping.length s

/-- Python `_maybe_confirm_correction(field, original, corrected)`. -/
def maybeConfirmCorrection (field original corrected : String) (s : Session) :
    Option (String × Session) :=
  if corrected = "" ∨ pyLower (pyStrip corrected) = pyLower (pyStrip original) then none
  else
    let label := lookupD FIELD_LABEL_MAP field (underscoreToSpace field)
    let prompt :=
      s!"Just to confirm, for your {label}, did you mean \"{corrected}\" instead of \"{original}\"? You can say yes or no."
    some (prompt,
      { s with pendingCorrection := some ⟨field, original, corrected⟩,
               lastQuestion := some prompt,
               lastQuestionType := some "confirm_correction" })

/-- Python `_guess_field_from_message(text)` (dict iteration in insertion order). -/
def guessFieldFromMessage (text : String) : Option String :=
  let mapping : List (String × String) :=
    [("name", "full_name"), ("full name", "full_name"), ("location", "location"),
     ("age", "age"), ("condition", "physical_condition"), ("physical", "physical_condition"),
     ("interests", "interests"), ("interest", "interests"),
     ("limitations", "limitations"), ("limitation", "limitations")]
  (mapping.find? (fun p => containsSub text p.1)).map (fun p => p.2)

/-- Python `_ask_for_field(field)`. -/
def askForField (field : String) (s : Session) : String × Session :=
  let prompts : List (String × String) :=
    [("full_name", "Got it — what is your full name?"),
     ("location", "Thanks — what city and state are you currently located in?"),
     ("age", "Thanks — how old are you?"),
     ("physical_condition",
      "Thanks — could you describe your physical condition or anything we should keep in mind?"),
     ("interests", "What kinds of activities or roles are you most interested in doing?"),
     ("limitations", "Are there any limitations or things you prefer to avoid?")]
  let response := lookupD prompts field "Please provide the updated value."
  (response, { s with lastQuestion := some response, lastQuestionType := some field })

/-- Python `_handle_greeting()`. -/
def handleGreeting (s : Session) : String × Session :=
  let response :=
    "Hello! My name is Asteroid, I am the Silver Star job platform chatbot assistant. Could you please share your full name so we can get started?"
  (response, { s with conversationState := "collecting_full_name",
                      lastQuestion := some response, lastQuestionType := some "full_name" })

/-- One guarded fill of `_auto_extract_all`: when field `k` is currently
empty and the candidate `raw` is truthy, store `val` and add `k` to the
`filled` set (the source's `if not self.candidate_info.get(k)` /
`if candidate:` pattern; for the oracle branches `val` is the transformed
value while the truthiness gate is on the raw one). -/
def autoFill (k : String) (raw : Option String) (val : String) (acc : Session × List String) :
    Session × List String :=
  if ¬ truthy (acc.1.profile.get k) ∧ truthy raw then
    (acc.1.setField k (some val), acc.2 ++ [k])
  else acc

/-- The age branch of the oracle section of `_auto_extract_all` (sets the
field only when a 1-3 digit run in range [10,120] is found). -/
def autoFillAge (raw : Option String) (acc : Session × List String) :
    Session × List String :=
  if ¬ truthy acc.1.profile.age ∧ truthy raw then
    match normalizeAge (raw.getD "") with
    | some a => (acc.1.setField "age" (some a), acc.2 ++ ["age"])
    | none => acc
  else acc

/-- Python `_auto_extract_all(message)`: fill only currently-empty fields,
heuristics first, then the structured-extraction oracle (whose failure is
caught, leaving `data = {}`). Returns the session and the `filled` set. -/
def autoExtractAll (o : Oracle) (msg : String) (s : Session) : Session × List String :=
  if msg = "" then (s, [])
  else
    let data := match o.autoExtract with | .ok d => d | .error _ => ExtractData.empty
    let acc := (s, ([] : List String))
    let acc :=
      let det := detectFullNameFromMessage msg
      autoFill "full_name" det (det.getD "") acc
    let acc :=
      let det := detectLocationFromMessage msg
      autoFill "location" det (det.getD "") acc
    let acc :=
      let det := detectPhysicalConditionFromMessage msg
      autoFill "physical_condition" det (det.getD "") acc
    let acc :=
      let det := detectInterestsFromMessage msg
      autoFill "interests" det (det.getD "") acc
    let acc :=
      let det := detectLimitationsFromMessage msg
      autoFill "limitations" det (det.getD "") acc
    let acc := autoFill "full_name" data.fullName (pyStrip (data.fullName.getD "")) acc
    let acc :=
      let rawLoc := pyStrip (data.location.getD "")
      let verified := validateAndFormatLocation o.geo rawLoc
      let v := match verified with
        | some t => if t ≠ "" then t else rawLoc
        | none => rawLoc
      autoFill "location" data.location v acc
    let acc := autoFillAge data.age acc
    let acc :=
      autoFill "physical_condition" data.physicalCondition
        (pyStrip (data.physicalCondition.getD "")) acc
    let acc := autoFill "interests" data.interests (pyStrip (data.interests.getD "")) acc
    let acc :=
      autoFill "limitations" data.limitations
        (normalizeLimitations (pyStrip (data.limitations.getD ""))) acc
    acc

/-- The inline name pass of `process_message` (source lines 615-622). -/
def inlineNameStep (msg : String) (s : Session) : Session :=
  let inlineName := if msg ≠ "" then detectFullNameFromMessage msg else none
  match inlineName with
  | none => s
  | some n =>
    let current := s.profile.fullName
    let nameMentioned := containsSub (pyLower msg) "name"
    if some n ≠ current ∧
        (s.conversationState = "collecting_full_name" ∨ nameMentioned ∨ ¬ truthy current) then
      s.setField "full_name" (some n)
    else s

/-- Python `_recommend_jobs()`: the whole body is a try/except with a canned
apology fallback, so it never raises; the produced text (database-backed
listing, LLM fallback, or the apology) is collaborator-determined and is
read from the oracle. -/
def recommendJobs (o : Oracle) : String := o.recsText

/-- Python `_handle_general_query(message)`: one bare `generate_response`
call with no try/except — an oracle failure propagates to the caller. -/
def handleGeneralQuery (o : Oracle) (s : Session) : Except Session (String × Session) :=
  match o.generalGen with
  | .ok t => .ok (t, s)
  | .error _ => .error s

/-- Python `CandidateChatbot._validate_profile()`. The validator service call
catches internally; the follow-up `generate_response` (missing-field branch)
and the summary `generate_response` (unreachable: the service always returns
a non-empty summary) are NOT wrapped in try/except inside this method, so
their failure propagates (`Except.error` with the mutations made so far).
`_generate_executive_summary` catches internally (`o.execSummary = none`
models any failure there). -/
def validateProfileCall (o : Oracle) (s : Session) : Except Session (String × Session) :=
  let v := validateProfileSvc s.profile o.profileLlm
  let s := { s with validationRes := some v }
  let completePart : Except Session (String × Session) :=
    (match (if v.summary ≠ "" then Except.ok v.summary else o.summaryGen : Except Unit String) with
     | .error _ => .error s
     | .ok summary =>
       let parts0 : List String :=
         (if v.issues ≠ [] then
            ["Here are a few notes I noticed:\n" ++
              String.intercalate "\n" (v.issues.map (fun i => "- " ++ i))]
          else []) ++
         (match v.notes with
          | some n => if n ≠ "" then [pyStrip n] else []
          | none => [])
       let (parts1, s) :=
         match o.execSummary with
         | some es =>
           (parts0 ++ ["Executive Summary:\n```json\n" ++ es.text ++ "\n```"],
            { s with executiveSummary := some es.text, jobSuggestions := es.suggestedRoles })
         | none =>
           ((if summary ≠ "" then [pyStrip summary] else []) ++ parts0,
            { s with executiveSummary := none, jobSuggestions := none })
       let consent := "Would you like me to generate job positions now?"
       let parts := parts1 ++ [consent]
       let s := { s with conversationState := "awaiting_recommendation_consent",
                         lastQuestion := some consent,
                         lastQuestionType := some "recommendations_consent" }
       .ok (String.intercalate "\n\n" (parts.filter (fun p => p ≠ "")), s))
  if v.isComplete then completePart
  else
    match v.missingFields with
    | [] => completePart
    | next :: _ =>
      let s := { s with conversationState := lookupD FIELD_STATE_MAP next "collecting_full_name" }
      match o.followupGen with
      | .error _ => .error s
      | .ok resp =>
        .ok (resp, { s with lastQuestion := some resp,
                            lastQuestionType := some (lookupD FIELD_TYPE_MAP next next) })

/-- Python `_confirm_profile(message)`. -/
def confirmProfile (o : Oracle) (msg : String) (s : Session) :
    Except Session (String × Session) :=
  let missing := FIELD_KEYS.filter (fun k => ¬ truthy (s.profile.get k))
  match missing with
  | next :: rest =>
    if (next :: rest).length = FIELD_KEYS.length then
      let response := s!"Let{sq}s get started. Could you please share your full name?"
      .ok (response, { s with conversationState := "collecting_full_name",
                              lastQuestion := some response,
                              lastQuestionType := some "full_name" })
    else
      let s := { s with conversationState := lookupD FIELD_STATE_MAP next "collecting_full_name" }
      .ok (askForField next s)
  | [] =>
    if s.lastQuestionType ≠ some "confirm_profile" then
      let summary := profileSummarySnippet s
      let prompt :=
        s!"I have your current profile as {summary}. Is the information presented on the page still correct? You can say {sq}all good{sq} or tell me what to update."
      .ok (prompt, { s with lastQuestion := some prompt,
                            lastQuestionType := some "confirm_profile" })
    else
      let normalized := pyLower (pyStrip msg)
      if normalized = "" then
        .ok ("Could you confirm if your profile details are correct, or tell me what to update?", s)
      else
        let affirmative := ["yes", "yep", "yeah", "correct", "all good", "looks good", "good",
          "ok", "okay"]
        let negative := ["no", "nope", "not quite", "update", "change", "edit"]
        if affirmative.any (fun w => containsSub normalized w) then
          let s := { s with conversationState := "validating_profile",
                            lastQuestion := none, lastQuestionType := none }
          validateProfileCall o s
        else if negative.any (fun w => containsSub normalized w) then
          let question :=
            "Sure — which field would you like to update first? You can say full name, location, age, physical condition, interests, or limitations."
          .ok (question, { s with conversationState := "awaiting_field_selection",
                                  lastQuestion := some question,
                                  lastQuestionType := some "choose_field" })
        else
          match guessFieldFromMessage normalized with
          | some quickField =>
            let s := { s with
              conversationState := lookupD FIELD_STATE_MAP quickField "collecting_full_name" }
            .ok (askForField quickField s)
          | none =>
            .ok (s!"Thanks. To update, tell me which field to change (e.g., {sq}update location{sq}), or say {sq}all good{sq} to keep everything as-is.",
              s)

/-- Python `_choose_field_to_edit(message)`. -/
def chooseFieldToEdit (msg : String) (s : Session) : String × Session :=
  match guessFieldFromMessage (pyLower msg) with
  | none =>
    ("Please tell me which field to update: full name, location, age, physical condition, interests, or limitations.",
     s)
  | some field =>
    let s := { s with conversationState := lookupD FIELD_STATE_MAP field "collecting_full_name" }
    askForField field s

/-- Python `_extract_full_name(message, validated_value)`. The LLM fallback
section is wrapped in try/except, so this handler never raises. -/
def extractFullNameH (o : Oracle) (msg : String) (validated : Option String) (s : Session) :
    String × Session :=
  let extracted0 : Option String :=
    match validated with
    | some v =>
      if v ≠ "" then
        let en := normSpacesStr (pyStrip
          (String.mk (v.data.filter (fun c => c.isAlpha ∨ isPySpace c ∨ c = sqc ∨ c = '-'))))
        if en ≠ "" then some (pyTitle en) else none
      else none
    | none => none
  let extracted :=
    match extracted0 with
    | some e => some e
    | none => detectFullNameFromMessage msg
  match extracted with
  | some name =>
    let s := s.setField "full_name" (some name)
    match detectLocationFromMessage msg with
    | some loc =>
      let s := s.setField "location" (some loc)
      let s := { s with conversationState := "collecting_age" }
      let frag := match preferredName s with | some p => ", " ++ p | none => ""
      let response := s!"Thanks{frag}! To make sure opportunities are appropriate, could you share your age?"
      (response, { s with lastQuestion := some response, lastQuestionType := some "age" })
    | none =>
      let s := { s with conversationState := "collecting_location" }
      let response := s!"Nice to meet you, {name}! Where are you currently located?"
      (response, { s with lastQuestion := some response, lastQuestionType := some "location" })
  | none =>
    match o.nameExtract with
    | .error _ =>
      let response := s!"I{sq}m having trouble understanding. Could you please tell me your full name?"
      (response, { s with lastQuestion := some response, lastQuestionType := some "full_name" })
    | .ok cand =>
      match cand with
      | some c =>
        if c ≠ "" then
          let cn := pyStrip (normSpacesStr c)
          let s := s.setField "full_name" (some cn)
          let s := { s with conversationState := "collecting_location" }
          let response := s!"Nice to meet you, {cn}! Where are you currently located?"
          (response, { s with lastQuestion := some response, lastQuestionType := some "location" })
        else
          let response := s!"I didn{sq}t catch your name yet. Could you please share your full name?"
          (response, { s with lastQuestion := some response, lastQuestionType := some "full_name" })
      | none =>
        let response := s!"I didn{sq}t catch your name yet. Could you please share your full name?"
        (response, { s with lastQuestion := some response, lastQuestionType := some "full_name" })

/-- Python `_extract_location(message, validated_value)`. Only the
`extract_structured_data` call can raise inside the try; the except branch
produces the trouble re-ask. -/
def extractLocationH (o : Oracle) (msg : String) (validated : Option String) (s : Session) :
    String × Session :=
  let location0 : Option String :=
    match validated with
    | some v => if v ≠ "" then some (pyStripChars " .,!" v) else none
    | none => none
  let location1 : Option String :=
    if truthy location0 then location0
    else
      [reSearch locHandlerPat1 msg, reSearch locHandlerPat2 msg,
       reMatchAt0 locHandlerPat3 msg].findSome? (fun mm =>
        match mm with
        | none => none
        | some m =>
          let cand := pyStripChars " .,!" (m.group1.getD "")
          if 2 ≤ cand.length ∧ cand.length ≤ 100 then some (normSpacesStr cand) else none)
  let core : Except Session (String × Session) :=
    (match (if truthy location1 then Except.ok location1
            else (o.locExtract.map (fun ext =>
              match ext with
              | some l => if l ≠ "" then some (pyStripChars " .,!" l) else none
              | none => none)) : Except Unit (Option String)) with
     | .error _ => .error s
     | .ok locOpt =>
       match locOpt with
       | some loc =>
         if loc ≠ "" then
           let verified := validateAndFormatLocation o.geo loc
           let v := match verified with
             | some t => if t ≠ "" then t else loc
             | none => loc
           let s := s.setField "location" (some v)
           match extractAgeInline msg with
           | some a =>
             let s := s.setField "age" (some a)
             match detectPhysicalConditionFromMessage msg with
             | some c =>
               let s := s.setField "physical_condition" (some c)
               let s := { s with conversationState := "collecting_interests" }
               let response :=
                 "Thanks for sharing. What kinds of activities or roles are you most interested in doing?"
               .ok (response, { s with lastQuestion := some response,
                                       lastQuestionType := some "interests" })
             | none =>
               let s := { s with conversationState := "collecting_physical_condition" }
               let response :=
                 "Thank you. Could you describe your current physical condition or anything I should keep in mind?"
               .ok (response, { s with lastQuestion := some response,
                                       lastQuestionType := some "physical_condition" })
           | none =>
             let s := { s with conversationState := "collecting_age" }
             let frag := match preferredName s with | some p => ", " ++ p | none => ""
             let response :=
               s!"Thanks{frag}! To make sure opportunities are appropriate, could you share your age?"
             .ok (response, { s with lastQuestion := some response,
                                     lastQuestionType := some "age" })
         else
           let response :=
             s!"I didn{sq}t catch your location. Could you please tell me where you{sq}re located?"
           .ok (response, { s with lastQuestion := some response,
                                   lastQuestionType := some "location" })
       | none =>
         let response :=
           s!"I didn{sq}t catch your location. Could you please tell me where you{sq}re located?"
         .ok (response, { s with lastQuestion := some response,
                                 lastQuestionType := some "location" }))
  match core with
  | .ok r => r
  | .error s' =>
    let response := s!"I{sq}m having trouble understanding. Could you please tell me your location?"
    (response, { s' with lastQuestion := some response, lastQuestionType := some "location" })

/-- Python `_extract_age(message, validated_value)`. The LLM fallback's
exception is only logged; the handler never raises. -/
def extractAgeH (o : Oracle) (msg : String) (validated : Option String) (s : Session) :
    String × Session :=
  let age0 := match validated with
    | some v => if v ≠ "" then normalizeAge v else none
    | none => none
  let age1 := match age0 with
    | some a => some a
    | none => normalizeAge msg
  let ageVal := match age1 with
    | some a => some a
    | none =>
      match o.ageExtract with
      | .error _ => none
      | .ok ext =>
        match ext with
        | some v => normalizeAge v
        | none => none
  match ageVal with
  | some a =>
    let s := s.setField "age" (some a)
    match detectPhysicalConditionFromMessage msg with
    | some c =>
      let s := s.setField "physical_condition" (some c)
      let s := { s with conversationState := "collecting_interests" }
      let response :=
        "Thanks for sharing. What kinds of activities or roles are you most interested in doing?"
      (response, { s with lastQuestion := some response, lastQuestionType := some "interests" })
    | none =>
      let s := { s with conversationState := "collecting_physical_condition" }
      let response :=
        "Thank you. Could you describe your current physical condition or anything I should keep in mind?"
      (response, { s with lastQuestion := some response,
                          lastQuestionType := some "physical_condition" })
  | none =>
    let response := s!"I didn{sq}t catch your age. Could you please share how old you are?"
    (response, { s with lastQuestion := some response, lastQuestionType := some "age" })

/-- Python `_extract_physical_condition(message, validated_value)`. -/
def extractPhysicalConditionH (o : Oracle) (msg : String) (validated : Option String)
    (s : Session) : String × Session :=
  let condition0 : Option String :=
    match validated with
    | some v => if pyStrip v ≠ "" then some (pyStrip v) else none
    | none => none
  let core : Except Session (String × Session) :=
    (match (if condition0 ≠ none then Except.ok condition0 else o.condExtract :
        Except Unit (Option String)) with
     | .error _ => .error s
     | .ok condOpt =>
       match condOpt with
       | some cond0 =>
         if cond0 ≠ "" then
           let cond := pyStrip cond0
           let afterCorrection : Option (String × Session) :=
             match detectCommonCorrections "physical_condition" cond with
             | some corrected => maybeConfirmCorrection "physical_condition" cond corrected s
             | none => none
           match afterCorrection with
           | some (prompt, s') => .ok (prompt, s')
           | none =>
             let s := s.setField "physical_condition" (some cond)
             match detectInterestsFromMessage msg with
             | some ii =>
               if ii ≠ "" then
                 let s := s.setField "interests" (some ii)
                 let s := { s with conversationState := "collecting_limitations" }
                 let response :=
                   s!"That{sq}s helpful. Are there any limitations or things you prefer to avoid so we can plan around them?"
                 .ok (response, { s with lastQuestion := some response,
                                         lastQuestionType := some "limitations" })
               else
                 let s := { s with conversationState := "collecting_interests" }
                 let response :=
                   "Thanks for sharing. What kinds of activities or roles are you most interested in doing?"
                 .ok (response, { s with lastQuestion := some response,
                                         lastQuestionType := some "interests" })
             | none =>
               let s := { s with conversationState := "collecting_interests" }
               let response :=
                 "Thanks for sharing. What kinds of activities or roles are you most interested in doing?"
               .ok (response, { s with lastQuestion := some response,
                                       lastQuestionType := some "interests" })
         else
           let response :=
             s!"I didn{sq}t catch any details about your physical condition. Could you describe it briefly?"
           .ok (response, { s with lastQuestion := some response,
                                   lastQuestionType := some "physical_condition" })
       | none =>
         let response :=
           s!"I didn{sq}t catch any details about your physical condition. Could you describe it briefly?"
         .ok (response, { s with lastQuestion := some response,
                                 lastQuestionType := some "physical_condition" }))
  match core with
  | .ok r => r
  | .error s' =>
    let response :=
      s!"I{sq}m having trouble understanding. Could you tell me a bit about your physical condition?"
    (response, { s' with lastQuestion := some response,
                         lastQuestionType := some "physical_condition" })

/-- Python `_extract_interests(message, validated_value)`. Its try block wraps
the LLM call AND the tail call into `_validate_profile`, so any exception
(including one from `_validate_profile`) is converted into the trouble
re-ask; the handler never raises, but mutations made before the exception
persist. -/
def extractInterestsH (o : Oracle) (msg : String) (validated : Option String) (s : Session) :
    String × Session :=
  let interests0 : Option String :=
    match validated with
    | some v => if pyStrip v ≠ "" then some (pyStrip v) else none
    | none => none
  let core : Except Session (String × Session) :=
    (match (if interests0 ≠ none then Except.ok interests0 else o.interestsExtract :
        Except Unit (Option String)) with
     | .error _ => .error s
     | .ok intOpt =>
       match intOpt with
       | some ii =>
         if ii ≠ "" then
           let s := s.setField "interests" (some (pyStrip ii))
           match detectLimitationsFromMessage msg with
           | some ll =>
             if ll ≠ "" then
               let s := s.setField "limitations" (some ll)
               let s := { s with conversationState := "validating_profile" }
               validateProfileCall o s
             else
               let s := { s with conversationState := "collecting_limitations" }
               let response :=
                 s!"That{sq}s helpful. Are there any limitations or things you prefer to avoid so we can plan around them?"
               .ok (response, { s with lastQuestion := some response,
                                       lastQuestionType := some "limitations" })
           | none =>
             let s := { s with conversationState := "collecting_limitations" }
             let response :=
               s!"That{sq}s helpful. Are there any limitations or things you prefer to avoid so we can plan around them?"
             .ok (response, { s with lastQuestion := some response,
                                     lastQuestionType := some "limitations" })
         else
           let response :=
             s!"I didn{sq}t quite catch your areas of interest. Could you tell me what types of activities you enjoy or are open to?"
           .ok (response, { s with lastQuestion := some response,
                                   lastQuestionType := some "interests" })
       | none =>
         let response :=
           s!"I didn{sq}t quite catch your areas of interest. Could you tell me what types of activities you enjoy or are open to?"
         .ok (response, { s with lastQuestion := some response,
                                 lastQuestionType := some "interests" }))
  match core with
  | .ok r => r
  | .error s' =>
    let response :=
      s!"I{sq}m having trouble understanding. Could you share the kinds of things you would like to do?"
    (response, { s' with lastQuestion := some response, lastQuestionType := some "interests" })

/-- Python `_extract_limitations(message, validated_value)`. As with
interests, the try block wraps the tail call into `_validate_profile`. -/
def extractLimitationsH (o : Oracle) (_msg : String) (validated : Option String) (s : Session) :
    String × Session :=
  let limitations0 : Option String :=
    match validated with
    | some v => if pyStrip v ≠ "" then some (pyStrip v) else none
    | none => none
  let core : Except Session (String × Session) :=
    (match (if limitations0 ≠ none then Except.ok limitations0 else o.limitsExtract :
        Except Unit (Option String)) with
     | .error _ => .error s
     | .ok limOpt =>
       let validateTail (s : Session) : Except Session (String × Session) :=
         validateProfileCall o { s with conversationState := "validating_profile" }
       match limOpt with
       | some ll =>
         if ll ≠ "" then
           let proposed := normalizeLimitations (pyStrip ll)
           if reTest limitsSanityRE proposed then
             let response :=
               s!"Could you confirm your limitations (e.g., {sq}no remote work{sq}, {sq}no driving over 3 hours{sq})?"
             .ok (response, { s with lastQuestion := some response,
                                     lastQuestionType := some "limitations" })
           else
             validateTail (s.setField "limitations" (some proposed))
         else
           validateTail (s.setField "limitations" none)
       | none => validateTail (s.setField "limitations" none))
  match core with
  | .ok r => r
  | .error s' =>
    let response :=
      s!"I{sq}m having trouble understanding. Could you share any limitations we should be aware of? If there are none, feel free to say so."
    (response, { s' with lastQuestion := some response, lastQuestionType := some "limitations" })

/-- The `yes` token set of the `awaiting_recommendation_consent` branch. -/
def consentYesTokens : List String :=
  ["yes", "yep", "yeah", "sure", "please", "ok", "okay", "go ahead", "do it",
   "generate", "yes please"]

/-- The `no` token set of the `awaiting_recommendation_consent` branch. -/
def consentNoTokens : List String :=
  ["no", "nope", "nah", "not now", "later", "skip"]

/-- The state dispatch of `process_message` (source lines 633-700). The
`Nat` component counts recommendation-adapter invocations during the turn
(instrumentation; the source has no such counter). -/
def dispatchState (o : Oracle) (msg : String) (validated : Option String) (s : Session) :
    Except Session (String × Session × Nat) :=
  let st := s.conversationState
  if st = "greeting" then
    match detectFullNameFromMessage msg with
    | some dn =>
      let s := s.setField "full_name" (some dn)
      match detectLocationFromMessage msg with
      | some il =>
        let verified := validateAndFormatLocation o.geo il
        let v := match verified with
          | some t => if t ≠ "" then t else il
          | none => il
        let s := s.setField "location" (some v)
        let s := { s with conversationState := "collecting_age" }
        let frag := match preferredName s with | some p => ", " ++ p | none => ""
        let response :=
          s!"Thanks{frag}! To make sure opportunities are appropriate, could you share your age?"
        .ok (response, { s with lastQuestion := some response, lastQuestionType := some "age" }, 0)
      | none =>
        let s := { s with conversationState := "collecting_location" }
        let response := s!"Nice to meet you, {dn}! Where are you currently located?"
        .ok (response, { s with lastQuestion := some response,
                                lastQuestionType := some "location" }, 0)
    | none =>
      let (r, s') := handleGreeting s
      .ok (r, s', 0)
  else if st = "confirming_profile" then
    (confirmProfile o msg s).map (fun x => (x.1, x.2, 0))
  else if st = "awaiting_field_selection" then
    let (r, s') := chooseFieldToEdit msg s
    .ok (r, s', 0)
  else if st = "collecting_full_name" then
    let (r, s') := extractFullNameH o msg validated s
    .ok (r, s', 0)
  else if st = "collecting_location" then
    let (r, s') := extractLocationH o msg validated s
    .ok (r, s', 0)
  else if st = "collecting_age" then
    let (r, s') := extractAgeH o msg validated s
    .ok (r, s', 0)
  else if st = "collecting_physical_condition" then
    let (r, s') := extractPhysicalConditionH o msg validated s
    .ok (r, s', 0)
  else if st = "collecting_interests" then
    let (r, s') := extractInterestsH o msg validated s
    .ok (r, s', 0)
  else if st = "collecting_limitations" then
    let (r, s') := extractLimitationsH o msg validated s
    .ok (r, s', 0)
  else if st = "profile_complete" then
    (handleGeneralQuery o s).map (fun x => (x.1, x.2, 0))
  else if st = "validating_profile" then
    (validateProfileCall o s).map (fun x => (x.1, x.2, 0))
  else if st = "awaiting_recommendation_consent" then
    let normalized := pyLower (pyStrip msg)
    let yesToks := consentYesTokens
    let noToks := consentNoTokens
    if yesToks.any (fun t => strStartsWith normalized t) then
      let s := { s with conversationState := "recommending_jobs" }
      let response := recommendJobs o
      let s := { s with conversationState := "profile_complete",
                        lastQuestion := none, lastQuestionType := none }
      .ok (response, s, 1)
    else if noToks.any (fun t => strStartsWith normalized t) then
      let response := s!"No problem — we can generate job matches whenever you{sq}re ready."
      .ok (response, { s with conversationState := "profile_complete",
                              lastQuestion := none, lastQuestionType := none }, 0)
    else
      let response := "Would you like me to generate job positions now?"
      .ok (response, { s with lastQuestion := some response,
                              lastQuestionType := some "recommendations_consent" }, 0)
  else if st = "recommending_jobs" then
    .ok (recommendJobs o, s, 1)
  else
    (handleGeneralQuery o s).map (fun x => (x.1, x.2, 0))

/-- The escalated re-ask produced after two or more consecutive invalid
answers for a field: includes the field's example value and the skip hint. -/
def escalatedReask (t : String) : String :=
  let label := lookupD FIELD_LABEL_MAP t (underscoreToSpace t)
  let exVal := lookupD EXAMPLES_MAP t ""
  s!"I still need your {label}. {exVal} If you{sq}d rather come back to this later, say {sq}skip{sq}."

/-- The plain re-ask on the first invalid answer (an f-string of Python
`None` prints "None" when the question type was cleared by a correction
round). -/
def plainReask (qtype : Option String) : String :=
  let label := match qtype with | some t => lookupD FIELD_LABEL_MAP t t | none => "None"
  s!"Could you please share your {label}?"

/-- Steps 4-7 of the turn algorithm: inline name pass, auto-extraction,
clearing a just-answered pending question, state auto-advance, dispatch,
and the final history append. -/
def afterPending (o : Oracle) (msg : String) (validated : Option String) (s : Session) :
    Except Session (String × Session × Nat) :=
  let s1 := inlineNameStep msg s
  let ax := autoExtractAll o msg s1
  let s2 := ax.1
  let filled := ax.2
  let s3 :=
    match s2.lastQuestionType with
    | some t =>
      if t ≠ "" ∧ filled.contains t then
        { s2 with lastQuestion := none, lastQuestionType := none }
      else s2
    | none => s2
  let s4 := advanceStateIfFilled s3
  match dispatchState o msg validated s4 with
  | .ok (resp, s5, recs) => .ok (resp, pushHist "assistant" resp s5, recs)
  | .error s5 => .error s5

/-- Python `process_message(message)`: returns the response text, the
updated session and the number of recommendation-adapter invocations; an
uncaught Python exception is `Except.error` with the session as mutated up
to the raise. -/
def processMessage (o : Oracle) (s0 : Session) (msg : String) :
    Except Session (String × Session × Nat) :=
  let s := pushHist "user" msg s0
  match s.lastQuestion, s.lastQuestionType with
  | some _, some _ =>
    let corr : Sum (String × Session) Session :=
      if s.lastQuestionType = some "confirm_correction" ∧ s.pendingCorrection ≠ none then
        let norm := pyLower (pyStrip msg)
        let yesW := ["yes", "yep", "yeah", "correct", "right", "ok", "okay"]
        let noW := ["no", "nope", "nah", "incorrect", "wrong"]
        if yesW.any (fun w => w = norm ∨ strStartsWith norm w) then
          match s.pendingCorrection with
          | some pc =>
            Sum.inr { s.setField pc.field (some pc.corrected) with
                      pendingCorrection := none, lastQuestion := none, lastQuestionType := none }
          | none => Sum.inr s
        else if noW.any (fun w => w = norm ∨ strStartsWith norm w) then
          Sum.inr { s with pendingCorrection := none,
                           lastQuestion := none, lastQuestionType := none }
        else
          Sum.inl ("Please reply yes or no so I can confirm the correction.", s)
      else Sum.inr s
    match corr with
    | Sum.inl (resp, s1) => .ok (resp, pushHist "assistant" resp s1, 0)
    | Sum.inr s1 =>
      let verdict := validateAnswer o.answer
      if verdict.isValid then
        let validated := verdict.extractedValue.map pyStrip
        let s2 :=
          match s1.lastQuestionType with
          | some t =>
            if t ≠ "" then { s1 with retryCounts := rcSet s1.retryCounts (some t) 0 } else s1
          | none => s1
        afterPending o msg validated s2
      else
        let qtype := s1.lastQuestionType
        let s2 :=
          { s1 with retryCounts := (rcSet s1.retryCounts qtype (rcGet s1.retryCounts qtype + 1)) }
        if pyLower (pyStrip msg) = "skip" then
          let s3 := { s2 with lastQuestion := none, lastQuestionType := none,
                              conversationState := "validating_profile" }
          (validateProfileCall o s3).map (fun x => (x.1, x.2, 0))
        else if rcGet s2.retryCounts qtype ≥ 2 then
          match qtype with
          | none => .error s2
          | some t =>
            let response := escalatedReask t
            let s3 := pushHist "assistant" response s2
            .ok (response, { s3 with lastQuestion := some response }, 0)
        else
          let response := plainReask qtype
          let s3 := pushHist "assistant" response s2
          .ok (response, { s3 with lastQuestion := some response }, 0)
  | _, _ => afterPending o msg none s

/-- Python `apply_manual_update(updates)`: write stripped truthy values
(anything else clears the field), then re-validate. -/
def applyManualUpdate (o : Oracle) (updates : List (String × Option String)) (s : Session) :
    Except Session (String × Session) :=
  let s := FIELD_KEYS.foldl (fun acc k =>
    match updates.find? (fun p => p.1 == k) with
    | some kv =>
      acc.setField k (match kv.2 with
        | some t => if pyStrip t ≠ "" then some (pyStrip t) else none
        | none => none)
    | none => acc) s
  validateProfileCall o { s with conversationState := "validating_profile" }

/-! ### Fixtures used by the claim theorems -/

/-- Oracle on which every inference/network call raises; the answer
validator fails closed to the invalid verdict. -/
def failOracle : Oracle :=
  { answer := .error (), autoExtract := .error (), nameExtract := .error (),
    locExtract := .error (), ageExtract := .error (), condExtract := .error (),
    interestsExtract := .error (), limitsExtract := .error (), geo := fun _ => none,
    profileLlm := .error (), followupGen := .error (), summaryGen := .error (),
    execSummary := none, generalGen := .error (), recsText := "" }

/-- Oracle whose answer-validation round trip yields the given verdict while
every other call raises. -/
def answerOracle (av : AnswerVerdict) : Oracle :=
  { failOracle with answer := .ok (some av) }

/-- A profile in which only `full_name` is locally missing. -/
def c4Profile : Profile :=
  ⟨none, some "NYC", some "65", some "good", some "tutoring", some "none stated"⟩

/-- An oracle validation verdict claiming completeness with no missing fields. -/
def c4LlmResp : LlmVal := ⟨some (some true), some [], some [], some "Looks great", none⟩

/-- A fully populated profile whose `full_name` holds the sentinel "n/a". -/
def c5Profile : Profile :=
  ⟨some "n/a", some "NYC", some "65", some "good", some "tutoring", some "walking"⟩

/-- Session seeded with only a location, as for a returning user. -/
def c6Start : Session := seedProfile [("location", "Boston, MA")] freshSession

/-- A profile with the three tail fields still missing. -/
def c7MissingProfile : Profile :=
  ⟨some "Jane Doe", some "Boston, MA", some "65", none, none, none⟩

/-- Session entering the validation phase with missing fields and no pending
question. -/
def c7MissingSession : Session :=
  { freshSession with conversationState := "validating_profile", profile := c7MissingProfile }

/-- Oracle whose only working call is the follow-up question generation. -/
def c7FollowOracle : Oracle :=
  { failOracle with followupGen := .ok "Could you tell me about your physical condition?" }

/-- A complete seed profile for the confirmation round trip. -/
def c8Seed : List (String × String) :=
  [("full_name", "Jane Doe"), ("location", "NYC"), ("age", "65"),
   ("physical_condition", "good"), ("interests", "tutoring"), ("limitations", "none for now")]

/-- First turn after seeding a full profile: any message elicits the
confirmation question. -/
def c8Turn1 : Except Session (String × Session × Nat) :=
  processMessage failOracle (seedProfile c8Seed freshSession) "hello"

/-! ### Claim theorems -/

/-- C1 counterexample: the claim says every member of the family
"I do not want remote work" / "no remote work" / "prefer in-person" is
normalized by the extraction pipeline to the canonical non-remote phrase,
but on "prefer in-person" the pipeline detects nothing at all (none), not
the canonical phrase. -/
theorem C1_counterexample :
    ¬ detectLimitationsFromMessage "prefer in-person" = some canonicalNonRemote := by
  decide

/-- C1 (amended): of the three family members, only "no remote work" is
detected, and it canonicalizes to the fixed non-remote phrase;
"I do not want remote work" and "prefer in-person" yield no detection.
In every case the produced value never contains a remote-positive phrase:
the only non-null output is the canonical phrase, which does not contain
"prefers remote" or "wants remote". -/
theorem C1_family_normalization :
    detectLimitationsFromMessage "no remote work" = some canonicalNonRemote ∧
    detectLimitationsFromMessage "I do not want remote work" = none ∧
    detectLimitationsFromMessage "prefer in-person" = none ∧
    containsSub canonicalNonRemote "prefers remote" = false ∧
    containsSub canonicalNonRemote "wants remote" = false ∧
    containsSub canonicalNonRemote "non-remote" = true := by
  decide

/-- C2: `process_message` CAN raise. From a fresh session, "hello" yields the
greeting question (first conjunct: the turn succeeds), and then "skip" with
every oracle call failing reaches `_validate_profile`, whose missing-field
follow-up `generate_response` call is not wrapped in try/except — the
exception escapes `process_message` (second conjunct). -/
theorem C2_exception_escapes :
    (processMessage failOracle freshSession "hello").isOk = true ∧
    ((processMessage failOracle freshSession "hello").bind
      (fun x => processMessage failOracle x.2.1 "skip")).isOk = false := by
  decide

/-- C4: the oracle's `missing_fields` CAN shrink the locally computed set.
Locally `full_name` is missing, but after an oracle response claiming
completeness the overwrite loop replaces the local list before the union,
so the union is the oracle list with itself: the result reports no missing
fields and `is_complete = true`. -/
theorem C4_oracle_shrinks_local_set :
    localMissingFields c4Profile = ["full_name"] ∧
    (validateProfileSvc c4Profile (.ok c4LlmResp)).missingFields = [] ∧
    (validateProfileSvc c4Profile (.ok c4LlmResp)).isComplete = true := by
  decide

/-- C5 counterexample: the claim says the local deterministic step treats the
sentinel "n/a" like a missing value, but `full_name = "n/a"` is NOT in the
locally computed missing set (the sentinel wording lives only in the oracle
prompt). -/
theorem C5_counterexample :
    ¬ ("full_name" ∈ localMissingFields c5Profile) := by
  decide

/-- C6: a per-state collection handler CAN replace an already-set location.
After seeding `location = "Boston, MA"`, the first turn routes to
collecting the (missing) full name while keeping the location (second
conjunct); the next message "I live in Denver, CO", with the answer
validator returning the valid name "Sam Smith", makes `_extract_full_name`
overwrite the stored location with the inline-detected "Denver, CO" without
any correction/manual-update dialogue (first conjunct). -/
theorem C6_handler_overwrites_location :
    ((processMessage failOracle c6Start "ok").bind (fun x =>
      processMessage (answerOracle ⟨true, some "Sam Smith"⟩) x.2.1 "I live in Denver, CO")).map
      (fun x => (x.2.1.profile.location, x.2.1.profile.fullName, x.2.1.conversationState))
      = .ok (some "Denver, CO", some "Sam Smith", "collecting_age") ∧
    (processMessage failOracle c6Start "ok").map
      (fun x => (x.2.1.profile.location, x.2.1.conversationState, x.2.1.lastQuestionType))
      = .ok (some "Boston, MA", "collecting_full_name", some "full_name") := by
  decide

/-- C7 counterexample: the claim says `_validate_profile` always ends by
asking for recommendation consent, but with a missing field it ends by
asking for that field (state `collecting_physical_condition`), and no
recommendation is run. -/
theorem C7_counterexample :
    (processMessage c7FollowOracle c7MissingSession "ok").map
      (fun x => (x.2.1.conversationState, x.2.1.lastQuestionType, x.2.2))
      = .ok ("collecting_physical_condition", some "physical_condition", 0) := by
  decide

/-- C8 counterexample: after the confirmation question, replying
"change location" does NOT lead to `collecting_location`: "change" is in the
negative keyword set, so the session moves to `awaiting_field_selection`
with a which-field question. -/
theorem C8_counterexample :
    (c8Turn1.bind (fun x =>
      processMessage (answerOracle ⟨true, none⟩) x.2.1 "change location")).map
      (fun x => (x.2.1.conversationState, x.2.1.lastQuestionType))
      = .ok ("awaiting_field_selection", some "choose_field") := by
  decide

/-- C8 (amended): seeding all six fields and processing a message elicits the
profile-confirmation question; replying "yes" (validator-valid) routes
through the validation phase (the profile validator runs, `validation` is
stored) and ends the turn at the consent gate with no recommendation run;
replying "change location" moves to `awaiting_field_selection`, after which
naming the bare field "location" moves to `collecting_location` with
`last_question_type = "location"`. -/
theorem C8_confirmation_roundtrip :
    c8Turn1.map (fun x => (x.2.1.conversationState, x.2.1.lastQuestionType))
      = .ok ("confirming_profile", some "confirm_profile") ∧
    (c8Turn1.bind (fun x => processMessage (answerOracle ⟨true, none⟩) x.2.1 "yes")).map
      (fun x => (x.2.1.conversationState, x.2.1.lastQuestionType,
                 x.2.1.validationRes.isSome, x.2.2))
      = .ok ("awaiting_recommendation_consent", some "recommendations_consent", true, 0) ∧
    ((c8Turn1.bind (fun x =>
        processMessage (answerOracle ⟨true, none⟩) x.2.1 "change location")).bind
      (fun x => processMessage (answerOracle ⟨true, none⟩) x.2.1 "location")).map
      (fun x => (x.2.1.conversationState, x.2.1.lastQuestionType))
      = .ok ("collecting_location", some "location") := by
  decide

/-- Helper: the canonical non-remote phrase is itself detected as
remote-negative, hence a fixed point of the normalization. -/
theorem canonical_fixed_point :
    normalizeLimitations canonicalNonRemote = canonicalNonRemote := by decide

/-- C10: `_normalize_limitations` is idempotent — applying it twice equals
applying it once; in particular its canonical non-remote output is a fixed
point (the canonical phrase contains the phrase "no remote work", so a
second pass maps it to itself). -/
theorem C10_normalize_idempotent (v : String) :
    normalizeLimitations (normalizeLimitations v) = normalizeLimitations v := by
  by_cases h0 : v = ""
  · subst h0; decide
  · by_cases hr : (remoteNegativePhrases.any fun p => containsSub (pyLower v) p) = true
    · have h1 : normalizeLimitations v = canonicalNonRemote := by
        unfold normalizeLimitations
        rw [if_neg h0, if_pos hr]
      rw [h1, canonical_fixed_point]
    · have h1 : normalizeLimitations v = v := by
        unfold normalizeLimitations
        rw [if_neg h0, if_neg hr]
      rw [h1, h1]

/-- C5 (amended): the local, deterministic step of `validate_profile` marks
a field missing only when its value is null/empty; a field holding ANY
non-empty string — in particular the sentinels "n/a", "unknown", "none" in
any casing — is not in the locally computed missing set. (The sentinel
wording exists only inside the oracle prompt.) -/
theorem C5_local_step_ignores_sentinels (p : Profile) (f v : String)
    (hv : p.get f = some v) (hne : v ≠ "") : f ∉ localMissingFields p := by
  intro hmem
  unfold localMissingFields at hmem
  rw [List.mem_filter] at hmem
  have h2 := hmem.2
  rw [hv] at h2
  simp [truthy, hne] at h2

/-- Witness for C5: the sentinel-valued `full_name` of `c5Profile` is not
locally missing. -/
theorem C5_sentinel_witness :
    c5Profile.get "full_name" = some "n/a" ∧ "full_name" ∉ localMissingFields c5Profile :=
  ⟨by decide, C5_local_step_ignores_sentinels c5Profile "full_name" "n/a" (by decide) (by decide)⟩

/-- Helper: writing a retry count and reading it back. -/
theorem rcGet_rcSet (m : List (Option String × Nat)) (k : Option String) (v : Nat) :
    rcGet (rcSet m k v) k = v := by
  induction m with
  | nil => simp [rcGet, rcSet]
  | cons p ps ih =>
    unfold rcSet
    by_cases h : (p.1 == k) = true
    · simp [h, rcGet]
    · simp [h, rcGet, ih]

/-- Helper: `_validate_profile` never writes the six profile data fields
(it only stores `validation` / `executive_summary` / `job_suggestions` and
moves the state/pending question), on the success path. -/
theorem validateProfileCall_ok_profile (o : Oracle) (s : Session) :
    ∀ r s', validateProfileCall o s = .ok (r, s') → s'.profile = s.profile := by
  intro r s' h
  unfold validateProfileCall at h
  rcases hex : o.execSummary with _ | es <;>
  rcases hsg : o.summaryGen with e | tg <;>
  rcases hfg : o.followupGen with e2 | tf <;>
  by_cases hic : (validateProfileSvc s.profile o.profileLlm).isComplete = true <;>
  rcases hmf : (validateProfileSvc s.profile o.profileLlm).missingFields with _ | ⟨nx, tl⟩ <;>
  by_cases hsum : (validateProfileSvc s.profile o.profileLlm).summary ≠ ""
  all_goals simp [hex, hsg, hfg, hic, hmf, hsum] at h
  all_goals (obtain ⟨-, h2⟩ := h; subst h2; rfl)

/-- The session state at which `process_message`'s skip branch hands off to
`_validate_profile` (question cleared, retry count bumped, state set). -/
def skipHandoff (s : Session) (msg : String) (t : String) : Session :=
  { pushHist "user" msg s with
      retryCounts := rcSet s.retryCounts (some t) (rcGet s.retryCounts (some t) + 1),
      lastQuestion := none, lastQuestionType := none,
      conversationState := "validating_profile" }

/-- C3 (amended): whenever a question is pending whose resolution does not
go through a pending typo-correction, and the answer validator judges the
message invalid (which includes every oracle failure, since the validator
fails closed), processing a message whose trimmed lowercasing is the
literal "skip" — for EVERY retry count and every pending question type —
clears the question, sets `conversation_state` to `validating_profile` and
immediately runs `_validate_profile` from that state (first conjunct: the
turn IS the validation call on the skip hand-off state, which has the
untouched profile); the skipped field is left untouched — in particular
still null — by the whole turn (last conjunct). The end-of-turn state is
then whatever `_validate_profile` chooses (next missing field or the
consent gate), not `validating_profile` itself. -/
theorem C3_skip_enters_validation (o : Oracle) (s : Session) (msg q t : String)
    (hq : s.lastQuestion = some q) (ht : s.lastQuestionType = some t)
    (hcc : t = "confirm_correction" → s.pendingCorrection = none)
    (hval : (validateAnswer o.answer).isValid = false)
    (hskip : pyLower (pyStrip msg) = "skip") :
    processMessage o s msg =
      (validateProfileCall o (skipHandoff s msg t)).map (fun x => (x.1, x.2, 0)) ∧
    (skipHandoff s msg t).conversationState = "validating_profile" ∧
    (skipHandoff s msg t).profile = s.profile ∧
    ∀ r s' n, processMessage o s msg = .ok (r, s', n) → s'.profile = s.profile := by
  have hmain : processMessage o s msg =
      (validateProfileCall o (skipHandoff s msg t)).map (fun x => (x.1, x.2, 0)) := by
    unfold processMessage
    simp only [pushHist, hq, ht]
    have hguard : ¬ (some t = some "confirm_correction" ∧ s.pendingCorrection ≠ none) := by
      rintro ⟨h1, h2⟩
      exact h2 (hcc (Option.some.inj h1))
    rw [if_neg hguard]
    simp only [hval, hskip, Bool.false_eq_true, if_false, ite_false, ite_true,
      reduceIte]
    rfl
  refine ⟨hmain, rfl, rfl, ?_⟩
  intro r s' n h
  rw [hmain] at h
  match hv : validateProfileCall o (skipHandoff s msg t) with
  | .error e => rw [hv] at h; exact absurd h (by simp [Except.map])
  | .ok (r0, s0) =>
    rw [hv] at h
    simp only [Except.map, Except.ok.injEq, Prod.mk.injEq] at h
    obtain ⟨-, h2, -⟩ := h
    subst h2
    have := validateProfileCall_ok_profile o (skipHandoff s msg t) r0 s0 hv
    simpa [skipHandoff, pushHist] using this

/-- A session entering the skip path with five failed attempts already
recorded for the pending age question. -/
def c3Session : Session :=
  { freshSession with
      conversationState := "collecting_age"
      lastQuestion := some "Thanks — how old are you?"
      lastQuestionType := some "age"
      retryCounts := [(some "age", 5)] }

/-- Witness for C3 at retry count 5 and the padded, capitalized message
"  SKIP  ". -/
theorem C3_skip_witness :
    processMessage failOracle c3Session "  SKIP  " =
      (validateProfileCall failOracle (skipHandoff c3Session "  SKIP  " "age")).map
        (fun x => (x.1, x.2, 0)) ∧
    (skipHandoff c3Session "  SKIP  " "age").conversationState = "validating_profile" ∧
    (skipHandoff c3Session "  SKIP  " "age").profile = c3Session.profile ∧
    ∀ r s' n, processMessage failOracle c3Session "  SKIP  " = .ok (r, s', n) →
      s'.profile = c3Session.profile :=
  C3_skip_enters_validation failOracle c3Session "  SKIP  " "Thanks — how old are you?" "age"
    (by decide) (by decide) (by decide) (by decide) (by decide)

/-- The session state produced by the invalid-answer re-ask branch. -/
def invalidReaskState (s : Session) (msg resp : String) (t : String) (c : Nat) : Session :=
  { pushHist "assistant" resp
      { pushHist "user" msg s with retryCounts := rcSet s.retryCounts (some t) c } with
    lastQuestion := some resp }

/-- Helper: one full turn through the invalid-answer branch (no skip, no
pending correction round): the retry count for the pending type is bumped,
and the response is the escalated re-ask from the second bump on, the
plain re-ask before. -/
theorem invalid_answer_turn (o : Oracle) (s : Session) (msg q t : String)
    (hq : s.lastQuestion = some q) (ht : s.lastQuestionType = some t)
    (hcc : ¬ t = "confirm_correction")
    (hval : (validateAnswer o.answer).isValid = false)
    (hm : ¬ pyLower (pyStrip msg) = "skip") :
    processMessage o s msg =
      .ok ((if rcGet s.retryCounts (some t) + 1 ≥ 2 then escalatedReask t
            else plainReask (some t)),
           invalidReaskState s msg
             (if rcGet s.retryCounts (some t) + 1 ≥ 2 then escalatedReask t
              else plainReask (some t))
             t (rcGet s.retryCounts (some t) + 1), 0) := by
  unfold processMessage
  simp only [pushHist, hq, ht]
  rw [if_neg (by rintro ⟨h1, -⟩; exact hcc (Option.some.inj h1))]
  simp only [hval, Bool.false_eq_true, reduceIte]
  rw [if_neg hm]
  rw [rcGet_rcSet]
  by_cases hc : rcGet s.retryCounts (some t) + 1 ≥ 2
  · rw [if_pos hc, if_pos hc]
    simp [invalidReaskState, pushHist, ht]
  · rw [if_neg hc, if_neg hc]
    simp [invalidReaskState, pushHist, ht]

/-- C9: when the answer validator rejects two messages in a row for the same
pending field (its retry count starting at zero, neither message the literal
"skip"), the first response is the plain re-ask — containing neither the
token "skip" nor an example marker — and the second response is the
escalated re-ask containing the field's (non-empty) concrete example value
and a mention of "skip"; the same field remains the pending question type
after both turns. -/
theorem C9_second_invalid_escalates (o1 o2 : Oracle) (s : Session) (q t msg1 msg2 : String)
    (hq : s.lastQuestion = some q) (ht : s.lastQuestionType = some t)
    (htf : t ∈ FIELD_KEYS)
    (hr : rcGet s.retryCounts (some t) = 0)
    (h1 : (validateAnswer o1.answer).isValid = false)
    (h2 : (validateAnswer o2.answer).isValid = false)
    (hm1 : ¬ pyLower (pyStrip msg1) = "skip")
    (hm2 : ¬ pyLower (pyStrip msg2) = "skip") :
    (processMessage o1 s msg1).map
      (fun x => (containsSub x.1 "skip", containsSub x.1 "e.g.,", x.2.1.lastQuestionType))
      = .ok (false, false, some t) ∧
    ((processMessage o1 s msg1).bind (fun x => processMessage o2 x.2.1 msg2)).map
      (fun x => (containsSub x.1 "skip", containsSub x.1 (lookupD EXAMPLES_MAP t ""),
                 x.2.1.lastQuestionType))
      = .ok (true, true, some t) ∧
    lookupD EXAMPLES_MAP t "" ≠ "" := by
  have hmem : t = "full_name" ∨ t = "location" ∨ t = "age" ∨ t = "physical_condition" ∨
      t = "interests" ∨ t = "limitations" := by
    simpa [FIELD_KEYS, REQUIRED_FIELDS] using htf
  have hcc : ¬ t = "confirm_correction" := by
    rcases hmem with rfl | rfl | rfl | rfl | rfl | rfl <;> decide
  have hexne : lookupD EXAMPLES_MAP t "" ≠ "" := by
    rcases hmem with rfl | rfl | rfl | rfl | rfl | rfl <;> decide
  have hsk1 : containsSub (plainReask (some t)) "skip" = false := by
    rcases hmem with rfl | rfl | rfl | rfl | rfl | rfl <;> decide
  have heg1 : containsSub (plainReask (some t)) "e.g.," = false := by
    rcases hmem with rfl | rfl | rfl | rfl | rfl | rfl <;> decide
  have hsk2 : containsSub (escalatedReask t) "skip" = true := by
    rcases hmem with rfl | rfl | rfl | rfl | rfl | rfl <;> decide
  have hex2 : containsSub (escalatedReask t) (lookupD EXAMPLES_MAP t "") = true := by
    rcases hmem with rfl | rfl | rfl | rfl | rfl | rfl <;> decide
  have e1 := invalid_answer_turn o1 s msg1 q t hq ht hcc h1 hm1
  rw [hr] at e1
  norm_num at e1
  have hS1q : (invalidReaskState s msg1 (plainReask (some t)) t 1).lastQuestion
      = some (plainReask (some t)) := by simp [invalidReaskState, pushHist]
  have hS1t : (invalidReaskState s msg1 (plainReask (some t)) t 1).lastQuestionType
      = some t := by simpa [invalidReaskState, pushHist] using ht
  have e2 := invalid_answer_turn o2 (invalidReaskState s msg1 (plainReask (some t)) t 1)
    msg2 (plainReask (some t)) t hS1q hS1t hcc h2 hm2
  rw [show rcGet (invalidReaskState s msg1 (plainReask (some t)) t 1).retryCounts (some t) = 1
    from by simp [invalidReaskState, pushHist, rcGet_rcSet]] at e2
  norm_num at e2
  refine ⟨?_, ?_, hexne⟩
  · rw [e1]
    simp only [Except.map]
    rw [hsk1, heg1, hS1t]
  · rw [e1]
    simp only [Except.bind]
    rw [e2]
    simp only [Except.map]
    have hS2t : (invalidReaskState (invalidReaskState s msg1 (plainReask (some t)) t 1)
        msg2 (escalatedReask t) t 2).lastQuestionType = some t := by
      simpa [invalidReaskState, pushHist] using hS1t
    rw [hsk2, hex2, hS2t]

/-- A session mid-collection of the location with no prior retries. -/
def c9Session : Session :=
  { freshSession with
      conversationState := "collecting_location"
      lastQuestion := some "Where are you currently located?"
      lastQuestionType := some "location" }

/-- Witness for C9: two turns whose every oracle call fails (so the answer
validator fails closed, i.e. invalid) on the pending location question; the
first response contains no example and no skip hint, the second contains
both, and the pending type stays "location". -/
theorem C9_escalation_witness :
    (processMessage failOracle c9Session "what?").map
      (fun x => (containsSub x.1 "skip", containsSub x.1 "e.g.,", x.2.1.lastQuestionType))
      = .ok (false, false, some "location") ∧
    ((processMessage failOracle c9Session "what?").bind
      (fun x => processMessage failOracle x.2.1 "why do you ask")).map
      (fun x => (containsSub x.1 "skip", containsSub x.1 (lookupD EXAMPLES_MAP "location" ""),
                 x.2.1.lastQuestionType))
      = .ok (true, true, some "location") ∧
    lookupD EXAMPLES_MAP "location" "" ≠ "" :=
  C9_second_invalid_escalates failOracle failOracle c9Session
    "Where are you currently located?" "location" "what?" "why do you ask"
    (by decide) (by decide) (by decide) (by decide) (by decide) (by decide)
    (by decide) (by decide)

/-- A session mid-collection of the physical condition. -/
def c3CorrSession : Session :=
  { freshSession with
      conversationState := "collecting_physical_condition"
      lastQuestion := some "How is your physical condition these days?"
      lastQuestionType := some "physical_condition" }

/-- C3 counterexample: "skip" does NOT always enter the validation phase.
A validator-extracted "go health problems" triggers the typo-correction
round (pending question type `confirm_correction`); sending "skip" there is
answered by the yes/no re-prompt, the state stays
`collecting_physical_condition` (not `validating_profile`), and the
correction stays pending. -/
theorem C3_counterexample :
    ((processMessage (answerOracle ⟨true, some "go health problems"⟩) c3CorrSession
        "idk").bind
      (fun x => processMessage failOracle x.2.1 "skip")).map
      (fun x => (x.1, x.2.1.conversationState, x.2.1.lastQuestionType,
                 x.2.1.pendingCorrection.isSome))
      = .ok ("Please reply yes or no so I can confirm the correction.",
             "collecting_physical_condition", some "confirm_correction", true) := by
  decide

/-- Helper: writing a profile field leaves the conversation state alone. -/
theorem setField_conversationState (s : Session) (k : String) (v : Option String) :
    (s.setField k v).conversationState = s.conversationState := rfl

/-- Helper: writing a profile field leaves the pending question type alone. -/
theorem setField_lastQuestionType (s : Session) (k : String) (v : Option String) :
    (s.setField k v).lastQuestionType = s.lastQuestionType := rfl

/-- Helper: the inline name pass never moves the conversation state. -/
theorem inlineNameStep_conversationState (msg : String) (s : Session) :
    (inlineNameStep msg s).conversationState = s.conversationState := by
  unfold inlineNameStep
  dsimp only
  split
  · rfl
  · split <;> rfl

/-- Helper: the inline name pass never changes the pending question type. -/
theorem inlineNameStep_lastQuestionType (msg : String) (s : Session) :
    (inlineNameStep msg s).lastQuestionType = s.lastQuestionType := by
  unfold inlineNameStep
  dsimp only
  split
  · rfl
  · split <;> rfl

/-- Helper: one guarded fill never moves the conversation state. -/
theorem autoFill_conversationState (k : String) (raw : Option String) (val : String)
    (acc : Session × List String) :
    (autoFill k raw val acc).1.conversationState = acc.1.conversationState := by
  unfold autoFill
  split <;> rfl

/-- Helper: one guarded fill never changes the pending question type. -/
theorem autoFill_lastQuestionType (k : String) (raw : Option String) (val : String)
    (acc : Session × List String) :
    (autoFill k raw val acc).1.lastQuestionType = acc.1.lastQuestionType := by
  unfold autoFill
  split <;> rfl

/-- Helper: the age fill never moves the conversation state. -/
theorem autoFillAge_conversationState (raw : Option String) (acc : Session × List String) :
    (autoFillAge raw acc).1.conversationState = acc.1.conversationState := by
  unfold autoFillAge
  split
  · split <;> rfl
  · rfl

/-- Helper: the age fill never changes the pending question type. -/
theorem autoFillAge_lastQuestionType (raw : Option String) (acc : Session × List String) :
    (autoFillAge raw acc).1.lastQuestionType = acc.1.lastQuestionType := by
  unfold autoFillAge
  split
  · split <;> rfl
  · rfl

/-- Helper: the opportunistic extraction pass never moves the conversation
state (it only writes profile fields). -/
theorem autoExtractAll_conversationState (o : Oracle) (msg : String) (s : Session) :
    (autoExtractAll o msg s).1.conversationState = s.conversationState := by
  unfold autoExtractAll
  split
  · rfl
  · simp only [autoFill_conversationState, autoFillAge_conversationState]

/-- Helper: the opportunistic extraction pass never changes the pending
question type. -/
theorem autoExtractAll_lastQuestionType (o : Oracle) (msg : String) (s : Session) :
    (autoExtractAll o msg s).1.lastQuestionType = s.lastQuestionType := by
  unfold autoExtractAll
  split
  · rfl
  · simp only [autoFill_lastQuestionType, autoFillAge_lastQuestionType]

/-- Helper: a guarded fill for key `k` adds at most `k` to the filled set. -/
theorem autoFill_contains_of (k : String) (raw : Option String) (val : String)
    (acc : Session × List String) (t : String) (h : ¬ t = k)
    (h2 : acc.2.contains t = false) :
    (autoFill k raw val acc).2.contains t = false := by
  unfold autoFill
  split
  · simp_all
  · exact h2

/-- Helper: the age fill adds at most "age" to the filled set. -/
theorem autoFillAge_contains_of (raw : Option String)
    (acc : Session × List String) (t : String) (h : ¬ t = "age")
    (h2 : acc.2.contains t = false) :
    (autoFillAge raw acc).2.contains t = false := by
  unfold autoFillAge
  split
  · split
    · simp_all
    · exact h2
  · exact h2

/-- Helper: the filled set of the extraction pass holds only the six profile
field keys, so never the consent question type. -/
theorem autoExtractAll_contains_consent (o : Oracle) (msg : String) (s : Session) :
    (autoExtractAll o msg s).2.contains "recommendations_consent" = false := by
  unfold autoExtractAll
  split
  · rfl
  · refine autoFill_contains_of _ _ _ _ _ (by decide) ?_
    refine autoFill_contains_of _ _ _ _ _ (by decide) ?_
    refine autoFill_contains_of _ _ _ _ _ (by decide) ?_
    refine autoFillAge_contains_of _ _ _ (by decide) ?_
    refine autoFill_contains_of _ _ _ _ _ (by decide) ?_
    refine autoFill_contains_of _ _ _ _ _ (by decide) ?_
    refine autoFill_contains_of _ _ _ _ _ (by decide) ?_
    refine autoFill_contains_of _ _ _ _ _ (by decide) ?_
    refine autoFill_contains_of _ _ _ _ _ (by decide) ?_
    refine autoFill_contains_of _ _ _ _ _ (by decide) ?_
    refine autoFill_contains_of _ _ _ _ _ (by decide) ?_
    rfl

/-- Helper: no advance-mapping row matches the consent state. -/
theorem advanceOnce_consent (s : Session)
    (h : s.conversationState = "awaiting_recommendation_consent") :
    advanceOnce s = none := by
  unfold advanceOnce
  simp [advanceMapping, List.findIdx?, h]

/-- Helper: the state auto-advance is the identity on the consent state. -/
theorem advanceStateIfFilled_consent (s : Session)
    (h : s.conversationState = "awaiting_recommendation_consent") :
    advanceStateIfFilled s = s := by
  unfold advanceStateIfFilled advanceIter
  simp [advanceOnce_consent s h, advanceMapping]

/-- Helper: both fallback summaries are non-empty strings. -/
theorem finalFallbackSummary_ne (b : Bool) : ¬ finalFallbackSummary b = "" := by
  unfold finalFallbackSummary
  cases b <;> decide

/-- Helper: the validator service always returns a non-empty summary, so the
summary-regeneration `generate_response` call of `_validate_profile` is
unreachable. -/
theorem validateProfileSvc_summary_ne (p : Profile) (r : Except Unit LlmVal) :
    ¬ (validateProfileSvc p r).summary = "" := by
  unfold validateProfileSvc
  rcases r with e | llm
  · dsimp only
    split <;> decide
  · dsimp only
    rcases hs : llm.summary with _ | t
    · simp only [hs]
      exact finalFallbackSummary_ne _
    · simp only [hs]
      by_cases ht : t = ""
      · simp only [ht, ne_eq, not_true_eq_false, if_false]
        exact finalFallbackSummary_ne _
      · simp only [ne_eq, ht, not_false_eq_true, if_true]

/-- Helper: an affirmative consent reply runs the recommender once and ends
in `profile_complete`. -/
theorem dispatchState_consent_yes (o : Oracle) (msg : String) (v : Option String) (s : Session)
    (hst : s.conversationState = "awaiting_recommendation_consent")
    (hyes : consentYesTokens.any (fun tk => strStartsWith (pyLower (pyStrip msg)) tk) = true) :
    dispatchState o msg v s =
      .ok (recommendJobs o,
        { s with conversationState := "profile_complete",
                 lastQuestion := none, lastQuestionType := none }, 1) := by
  unfold dispatchState
  simp only [hst, hyes]
  rfl

/-- Helper: a negative consent reply ends in `profile_complete` with no
recommender run. -/
theorem dispatchState_consent_no (o : Oracle) (msg : String) (v : Option String) (s : Session)
    (hst : s.conversationState = "awaiting_recommendation_consent")
    (hyes : consentYesTokens.any (fun tk => strStartsWith (pyLower (pyStrip msg)) tk) = false)
    (hno : consentNoTokens.any (fun tk => strStartsWith (pyLower (pyStrip msg)) tk) = true) :
    dispatchState o msg v s =
      .ok (s!"No problem — we can generate job matches whenever you{sq}re ready.",
        { s with conversationState := "profile_complete",
                 lastQuestion := none, lastQuestionType := none }, 0) := by
  unfold dispatchState
  simp only [hst, hyes, hno]
  rfl

/-- Helper: steps 4-7 of the turn on the consent state with an affirmative
reply — the pre-dispatch passes keep the state at the consent gate, and the
dispatch runs the recommender exactly once. -/
theorem afterPending_consent_yes (o : Oracle) (msg : String) (v : Option String) (s : Session)
    (hst : s.conversationState = "awaiting_recommendation_consent")
    (ht : s.lastQuestionType = some "recommendations_consent")
    (hyes : consentYesTokens.any (fun tk => strStartsWith (pyLower (pyStrip msg)) tk) = true) :
    ∃ r s2, afterPending o msg v s = .ok (r, s2, 1) ∧
      s2.conversationState = "profile_complete" := by
  unfold afterPending
  dsimp only
  have hq2 : (autoExtractAll o msg (inlineNameStep msg s)).1.lastQuestionType
      = some "recommendations_consent" := by
    rw [autoExtractAll_lastQuestionType, inlineNameStep_lastQuestionType, ht]
  have hs2 : (autoExtractAll o msg (inlineNameStep msg s)).1.conversationState
      = "awaiting_recommendation_consent" := by
    rw [autoExtractAll_conversationState, inlineNameStep_conversationState, hst]
  rw [hq2]
  dsimp only
  rw [if_neg (by
    rintro ⟨-, hc⟩
    rw [autoExtractAll_contains_consent] at hc
    exact Bool.false_ne_true hc)]
  rw [advanceStateIfFilled_consent _ hs2]
  rw [dispatchState_consent_yes o msg v _ hs2 hyes]
  exact ⟨_, _, rfl, rfl⟩

/-- Helper: steps 4-7 of the turn on the consent state with a negative
reply — no recommender run, state `profile_complete`. -/
theorem afterPending_consent_no (o : Oracle) (msg : String) (v : Option String) (s : Session)
    (hst : s.conversationState = "awaiting_recommendation_consent")
    (ht : s.lastQuestionType = some "recommendations_consent")
    (hyes : consentYesTokens.any (fun tk => strStartsWith (pyLower (pyStrip msg)) tk) = false)
    (hno : consentNoTokens.any (fun tk => strStartsWith (pyLower (pyStrip msg)) tk) = true) :
    ∃ r s2, afterPending o msg v s = .ok (r, s2, 0) ∧
      s2.conversationState = "profile_complete" := by
  unfold afterPending
  dsimp only
  have hq2 : (autoExtractAll o msg (inlineNameStep msg s)).1.lastQuestionType
      = some "recommendations_consent" := by
    rw [autoExtractAll_lastQuestionType, inlineNameStep_lastQuestionType, ht]
  have hs2 : (autoExtractAll o msg (inlineNameStep msg s)).1.conversationState
      = "awaiting_recommendation_consent" := by
    rw [autoExtractAll_conversationState, inlineNameStep_conversationState, hst]
  rw [hq2]
  dsimp only
  rw [if_neg (by
    rintro ⟨-, hc⟩
    rw [autoExtractAll_contains_consent] at hc
    exact Bool.false_ne_true hc)]
  rw [advanceStateIfFilled_consent _ hs2]
  rw [dispatchState_consent_no o msg v _ hs2 hyes hno]
  exact ⟨_, _, rfl, rfl⟩

/-- Helper: when the merged missing-field set is empty, `_validate_profile`
ends the turn at the consent gate, leaves the profile untouched, and runs no
recommender (its dispatch row reports 0 runs). -/
theorem validateProfileCall_consent (o : Oracle) (s : Session)
    (hm : (validateProfileSvc s.profile o.profileLlm).missingFields = []) :
    ∃ r s2, validateProfileCall o s = .ok (r, s2) ∧
      s2.conversationState = "awaiting_recommendation_consent" ∧
      s2.lastQuestionType = some "recommendations_consent" ∧
      s2.profile = s.profile := by
  unfold validateProfileCall
  dsimp only
  have hsum := validateProfileSvc_summary_ne s.profile o.profileLlm
  rw [if_pos hsum]
  dsimp only
  rcases hex : o.execSummary with _ | es <;>
    by_cases hic : (validateProfileSvc s.profile o.profileLlm).isComplete = true <;>
    simp only [hex, hic, hm, if_true, if_false, Bool.false_eq_true, reduceIte] <;>
    exact ⟨_, _, rfl, rfl, rfl, rfl⟩

/-- C7 (amended): the recommender is gated on explicit consent. (1) Whenever
the validator reports no missing field, `_validate_profile` ends the turn at
the consent gate (state `awaiting_recommendation_consent`, pending type
`recommendations_consent`) with the profile untouched and no recommender
run; with a missing field it instead re-enters collection (see the
counterexample). (2) From the consent gate, a turn whose reply the answer
validator accepts and whose normalized text starts with an affirmative
token runs the recommender exactly once and ends in `profile_complete`.
(3) Such a turn starting with a negative token (and no affirmative one)
ends in `profile_complete` with zero recommender runs. -/
theorem C7_consent_gate :
    (∀ (o : Oracle) (s : Session),
      (validateProfileSvc s.profile o.profileLlm).missingFields = [] →
      ∃ r s2, validateProfileCall o s = .ok (r, s2) ∧
        s2.conversationState = "awaiting_recommendation_consent" ∧
        s2.lastQuestionType = some "recommendations_consent" ∧
        s2.profile = s.profile) ∧
    (∀ (o : Oracle) (s : Session) (q msg : String),
      s.conversationState = "awaiting_recommendation_consent" →
      s.lastQuestion = some q →
      s.lastQuestionType = some "recommendations_consent" →
      (validateAnswer o.answer).isValid = true →
      consentYesTokens.any (fun tk => strStartsWith (pyLower (pyStrip msg)) tk) = true →
      ∃ r s2, processMessage o s msg = .ok (r, s2, 1) ∧
        s2.conversationState = "profile_complete") ∧
    (∀ (o : Oracle) (s : Session) (q msg : String),
      s.conversationState = "awaiting_recommendation_consent" →
      s.lastQuestion = some q →
      s.lastQuestionType = some "recommendations_consent" →
      (validateAnswer o.answer).isValid = true →
      consentYesTokens.any (fun tk => strStartsWith (pyLower (pyStrip msg)) tk) = false →
      consentNoTokens.any (fun tk => strStartsWith (pyLower (pyStrip msg)) tk) = true →
      ∃ r s2, processMessage o s msg = .ok (r, s2, 0) ∧
        s2.conversationState = "profile_complete") := by
  refine ⟨validateProfileCall_consent, ?_, ?_⟩
  · intro o s q msg hst hq ht hv hyes
    unfold processMessage
    simp only [pushHist, hq, ht]
    rw [if_neg (by rintro ⟨h1, -⟩; exact absurd (Option.some.inj h1) (by decide))]
    simp only [hv, reduceIte]
    exact afterPending_consent_yes o msg _ _ (by simp [hst]) (by simp [ht]) hyes
  · intro o s q msg hst hq ht hv hyes hno
    unfold processMessage
    simp only [pushHist, hq, ht]
    rw [if_neg (by rintro ⟨h1, -⟩; exact absurd (Option.some.inj h1) (by decide))]
    simp only [hv, reduceIte]
    exact afterPending_consent_no o msg _ _ (by simp [hst]) (by simp [ht]) hyes hno

/-- A complete six-field profile. -/
def pC7Full : Profile :=
  { Profile.empty with
      fullName := some "Jane Roe"
      location := some "Springfield, IL"
      age := some "44"
      physicalCondition := some "good"
      interests := some "tutoring"
      limitations := some "none for now" }

/-- A session entering the validation phase with a complete profile. -/
def c7FullSession : Session :=
  { freshSession with
      conversationState := "validating_profile"
      profile := pC7Full }

/-- A session at the consent gate. -/
def c7ConsentSession : Session :=
  { freshSession with
      conversationState := "awaiting_recommendation_consent"
      lastQuestion := some "Would you like me to generate job positions now?"
      lastQuestionType := some "recommendations_consent" }

/-- Witness for C7: a complete profile ends validation at the consent gate;
"yes please" then runs the recommender once and "not now" runs none, both
ending in `profile_complete`. -/
theorem C7_consent_witness :
    (∃ r s2, validateProfileCall failOracle c7FullSession = .ok (r, s2) ∧
      s2.conversationState = "awaiting_recommendation_consent" ∧
      s2.lastQuestionType = some "recommendations_consent" ∧
      s2.profile = c7FullSession.profile) ∧
    (∃ r s2, processMessage (answerOracle ⟨true, none⟩) c7ConsentSession "yes please"
        = .ok (r, s2, 1) ∧ s2.conversationState = "profile_complete") ∧
    (∃ r s2, processMessage (answerOracle ⟨true, none⟩) c7ConsentSession "not now"
        = .ok (r, s2, 0) ∧ s2.conversationState = "profile_complete") :=
  ⟨C7_consent_gate.1 failOracle c7FullSession (by decide),
   C7_consent_gate.2.1 (answerOracle ⟨true, none⟩) c7ConsentSession
     "Would you like me to generate job positions now?" "yes please"
     (by decide) (by decide) (by decide) (by decide) (by decide),
   C7_consent_gate.2.2 (answerOracle ⟨true, none⟩) c7ConsentSession
     "Would you like me to generate job positions now?" "not now"
     (by decide) (by decide) (by decide) (by decide) (by decide) (by decide)⟩

end SilverStar
